import Mathlib

/-!
# AD7768-1 driver: transaction framing and integrity checking

A shallow embedding of `drivers/adc/ad7768-1/ad77681.c`.

* Bytes (`uint8_t`) are natural numbers below 256; `u8` is the conversion to
  `uint8_t` that C applies on every store into a byte.
* Status codes (`int32_t`) are integers.
* A byte array is a list; `*data` is the head of the list and `data++` its tail.
* The header `ad77681.h` is not among the sources: its constants and macros are
  the fields of `ad77681_h`, and every function takes the header as an argument.
* The SPI engine is an external collaborator: `spi_engine` is an arbitrary state
  machine, and `spi_desc` carries its state together with the list of the calls
  of the transport, the list of the masked writes and the list of the calls of
  `ad77681_compute_xor` made so far.
* What the C source leaves to the platform is a field of `spi_engine` as well:
  the content of storage read before it is written, and the effect of bytes
  stored past the end of an automatic array on the objects next to it.
-/

set_option linter.unusedVariables false
set_option maxRecDepth 100000

/-! ## Machine bytes -/

/-- Conversion to `uint8_t`. -/
def u8 (x : Nat) : Nat := x % 256

/-- The operator `~` followed by the conversion to `uint8_t`. -/
def u8_not (x : Nat) : Nat := 255 - x % 256

/-! ## Types of `ad77681.h` -/

/-- The power modes ("Accepted values" of `ad77681_set_power_mode`). -/
inductive ad77681_power_mode where
  | AD77681_ECO
  | AD77681_MEDIAN
  | AD77681_FAST
  deriving DecidableEq, Repr

/-- The MCLK dividers ("Accepted values" of `ad77681_set_mclk_div`). -/
inductive ad77681_mclk_div where
  | AD77681_MCLK_DIV_16
  | AD77681_MCLK_DIV_8
  | AD77681_MCLK_DIV_4
  | AD77681_MCLK_DIV_2
  deriving DecidableEq, Repr

/-- The conversion modes ("Accepted values" of `ad77681_set_conv_mode`). -/
inductive ad77681_conv_mode where
  | AD77681_CONV_CONTINUOUS
  | AD77681_CONV_ONE_SHOT
  | AD77681_CONV_SINGLE
  | AD77681_CONV_PERIODIC
  deriving DecidableEq, Repr

/-- The signals of the diagnostic mux ("Accepted values" of
`ad77681_set_conv_mode`). -/
inductive ad77681_conv_diag_mux where
  | AD77681_TEMP_SENSOR
  | AD77681_AIN_SHORT
  | AD77681_POSITIVE_FS
  | AD77681_NEGATIVE_FS
  deriving DecidableEq, Repr

/-- The conversion result lengths ("Accepted values" of `ad77681_set_convlen`). -/
inductive ad77681_conv_len where
  | AD77681_CONV_24BIT
  | AD77681_CONV_16BIT
  deriving DecidableEq, Repr

/-- The checksum modes ("Accepted values" of `ad77681_set_crc_sel`). -/
inductive ad77681_crc_sel where
  | AD77681_CRC
  | AD77681_XOR
  | AD77681_NO_CRC
  deriving DecidableEq, Repr

open ad77681_power_mode ad77681_mclk_div ad77681_conv_mode ad77681_conv_diag_mux
open ad77681_conv_len ad77681_crc_sel

/-- Modelled from the spec: `struct ad77681_dev`, whose declaration is in the
header. The fields are those the driver accesses, typed as in the data model of
the spec (the status byte flag and the diagnostic select are booleans, the
cached frame count is a byte); the SPI descriptor is threaded separately
(`spi_desc`). -/
structure ad77681_dev where
  power_mode : ad77681_power_mode
  mclk_div : ad77681_mclk_div
  conv_mode : ad77681_conv_mode
  diag_mux_sel : ad77681_conv_diag_mux
  conv_diag_sel : Bool
  conv_len : ad77681_conv_len
  crc_sel : ad77681_crc_sel
  status_bit : Bool
  data_frame_16bit : Nat
  deriving DecidableEq, Repr

/-- Modelled from the spec: the fields of `struct ad77681_init_param` (declared
in the header) that `ad77681_setup` copies. -/
structure ad77681_init_param where
  power_mode : ad77681_power_mode
  mclk_div : ad77681_mclk_div
  conv_mode : ad77681_conv_mode
  diag_mux_sel : ad77681_conv_diag_mux
  conv_diag_sel : Bool
  conv_len : ad77681_conv_len
  crc_sel : ad77681_crc_sel
  status_bit : Bool
  deriving DecidableEq, Repr

/-- The constants and macros of `ad77681.h` that the driver uses. The header is
not among the sources, so they are parameters: a field macro takes the value it
is applied to in the source and yields the field value. -/
structure ad77681_h where
  AD77681_CRC8_POLY : Nat
  AD77681_REG_READ : Nat → Nat
  AD77681_REG_WRITE : Nat → Nat
  AD77681_REG_ADC_DATA : Nat
  AD77681_REG_POWER_CLOCK : Nat
  AD77681_POWER_CLK_PWRMODE_MSK : Nat
  AD77681_POWER_CLK_PWRMODE : ad77681_power_mode → Nat
  AD77681_POWER_CLK_MCLK_DIV_MSK : Nat
  AD77681_POWER_CLK_MCLK_DIV : ad77681_mclk_div → Nat
  AD77681_REG_CONVERSION : Nat
  AD77681_CONVERSION_MODE_MSK : Nat
  AD77681_CONVERSION_MODE : ad77681_conv_mode → Nat
  AD77681_CONVERSION_DIAG_MUX_MSK : Nat
  AD77681_CONVERSION_DIAG_MUX_SEL : ad77681_conv_diag_mux → Nat
  AD77681_CONVERSION_DIAG_SEL_MSK : Nat
  AD77681_CONVERSION_DIAG_SEL : Bool → Nat
  AD77681_REG_INTERFACE_FORMAT : Nat
  AD77681_INTERFACE_CONVLEN_MSK : Nat
  AD77681_INTERFACE_CONVLEN : ad77681_conv_len → Nat
  AD77681_INTERFACE_CRC_EN_MSK : Nat
  AD77681_INTERFACE_CRC_EN : Nat → Nat
  AD77681_INTERFACE_CRC_TYPE_MSK : Nat
  AD77681_INTERFACE_CRC_TYPE : ad77681_crc_sel → Nat
  AD77681_INTERFACE_STATUS_EN_MSK : Nat
  AD77681_INTERFACE_STATUS_EN : Bool → Nat
  AD77681_REG_SYNC_RESET : Nat
  AD77681_SYNC_RST_SPI_RESET_MSK : Nat
  AD77681_SYNC_RST_SPI_RESET : Nat → Nat

/-- The value the source comments give for `INITIAL_CRC`
("INITIAL_CRC is 0, when ADC is not in continuous-read mode"). -/
def INITIAL_CRC : Nat := 0

/-- The status of success: "0 in case of success". -/
def SUCCESS : Int := 0

/-- Modelled from the spec: `error.h` is not among the sources; the status of a
failure is a "negative error code", taken as -1. -/
def FAILURE : Int := -1

/-! ## Checksum engine -/

/-- The body of the bit loop of `ad77681_compute_crc8` for the mask `i`: compare
the top bit of the CRC with the data bit, shift, and XOR the polynomial in when
they differ. -/
def crc8_bit (H : ad77681_h) (crc byte i : Nat) : Nat :=
  if (decide (crc &&& 0x80 ≠ 0)) != (decide (byte &&& i ≠ 0)) then
    u8 (u8 (crc <<< 1) ^^^ H.AD77681_CRC8_POLY)
  else
    u8 (crc <<< 1)

/-- The loop `for (i = 0x80; i != 0; i >>= 1)` of `ad77681_compute_crc8`, run
from the mask `i` for at most `fuel` iterations. -/
def crc8_bit_loop (H : ad77681_h) (byte : Nat) : Nat → Nat → Nat → Nat
  | 0, _, crc => crc
  | fuel + 1, i, crc =>
    if i ≠ 0 then crc8_bit_loop H byte fuel (u8 (i >>> 1)) (crc8_bit H crc byte i)
    else crc

/-- `ad77681_compute_crc8(data, data_size, init_val)`: the loop
`while (data_size)` by recursion on `data_size`. The bit loop gets the eight
iterations it needs (`crc8_bit_loop_fuel`). A read past the end of the list is
outside the caller's contract and reads 0. -/
def ad77681_compute_crc8 (H : ad77681_h) : List Nat → Nat → Nat → Nat
  | _, 0, crc => crc
  | data, data_size + 1, crc =>
    ad77681_compute_crc8 H data.tail data_size (crc8_bit_loop H (data.headD 0) 8 0x80 crc)

/-- An automatic byte array together with the record of the stores made into
it: `cells` is its content, `stores` the indices stored to, oldest first. -/
structure auto_bytes where
  cells : List Nat
  stores : List Nat
  deriving DecidableEq, Repr

/-- The store `a[k] = v`, recorded by its index (a store past the end of the
array is outside the caller's contract and changes no cell here). -/
def array_store (a : auto_bytes) (k v : Nat) : auto_bytes :=
  { cells := a.cells.set k v, stores := a.stores ++ [k] }

/-- The loop of `ad77681_compute_xor`, from index `i`, with the scratch array
`buf` (three bytes): the checksum, and the scratch array as the loop leaves
it. -/
def compute_xor_loop (data_size : Nat) :
    Nat → Nat → auto_bytes → List Nat → Nat → Nat × auto_bytes
  | 0, _, buf, _, crc => (crc, buf)
  | fuel + 1, i, buf, data, crc =>
    if i < data_size then
      let buf := array_store buf i (data.headD 0)
      let crc := crc ^^^ buf.cells.getD i 0
      compute_xor_loop data_size fuel (i + 1) buf data.tail crc
    else (crc, buf)

/-- The body of `ad77681_compute_xor(data, data_size, init_val)`: `data_size`
iterations take the loop from `i = 0` to its exit. The scratch array is written
before it is read, so its initial content is immaterial (zeros here). -/
def compute_xor_run (data : List Nat) (data_size init_val : Nat) : Nat × auto_bytes :=
  compute_xor_loop data_size data_size 0 { cells := [0, 0, 0], stores := [] } data init_val

/-- `ad77681_compute_xor(data, data_size, init_val)`: the checksum its body
returns. -/
def ad77681_compute_xor (data : List Nat) (data_size init_val : Nat) : Nat :=
  (compute_xor_run data data_size init_val).1

/-! ## The SPI engine -/

/-- What one exchange yields: the status, the byte received at each position
and the next state of the engine. -/
structure spi_reply (σ : Type) where
  ret : Int
  rx : Nat → Nat
  st : σ

/-- The automatic objects of `ad77681_spi_read_adc_data` that it reads after the
copy into `crc_calc_buf`: the status `ret` and the exchange array `buf`. -/
structure adc_locals where
  ret : Int
  buf : List Nat
  deriving DecidableEq, Repr

/-- Modelled from the spec: the transport collaborator
(`spi_write_and_read`, whose code is not among the sources), "exchange buffer
of N bytes, return same-length buffer or failure", as an arbitrary state
machine over the frames it is handed. `indeterminate` gives the content of
storage that the driver reads before writing it (automatic arrays), which the C
source leaves unspecified. `overrun` gives what becomes of the automatic objects
next to an array when bytes are stored past its end, from these bytes and the
objects as they were: the C source leaves it undefined and the layout of the
frame decides it. -/
structure spi_engine (σ : Type) where
  write_and_read : σ → List Nat → spi_reply σ
  indeterminate : σ → Nat → Nat
  overrun : σ → List Nat → adc_locals → adc_locals

/-- One call of `spi_write_and_read` as the driver makes it: the size of the
array it passes, the number of bytes it asks for, and the bytes clocked out. -/
structure spi_call where
  capacity : Nat
  bytes_number : Nat
  frame : List Nat
  deriving DecidableEq, Repr

/-- One call of `ad77681_spi_write_mask` as the driver makes it: its arguments
and the status it returned. -/
structure masked_write where
  reg_addr : Nat
  mask : Nat
  data : Nat
  ret : Int
  deriving DecidableEq, Repr

/-- One call of `ad77681_compute_xor` as the driver makes it: the length it
passes, the size of the scratch array of the function, and the indices of the
scratch array that the call stored to. -/
structure xor_call where
  data_size : Nat
  capacity : Nat
  stores : List Nat
  deriving DecidableEq, Repr

/-- The SPI descriptor: the state of the engine, the calls of the transport
made so far, the masked writes made so far and the calls of
`ad77681_compute_xor` made so far, oldest first. -/
structure spi_desc (σ : Type) where
  st : σ
  calls : List spi_call
  writes : List masked_write
  xors : List xor_call := []

/-- A status together with the content of a byte array and the descriptor. -/
structure xfer (σ : Type) where
  ret : Int
  buf : List Nat
  desc : spi_desc σ

/-- A status together with the descriptor. -/
structure status (σ : Type) where
  ret : Int
  desc : spi_desc σ

/-- The result of `ad77681_spi_read_mask`: status, `*data`, descriptor. -/
structure masked (σ : Type) where
  ret : Int
  data : Nat
  desc : spi_desc σ

/-- The result of a setter: status, device structure, descriptor. -/
structure dev_status (σ : Type) where
  ret : Int
  dev : ad77681_dev
  desc : spi_desc σ

/-- The result of `ad77681_spi_read_adc_data`: status, the caller's `adc_data`,
descriptor, and what the copy into the scratch array `crc_calc_buf` wrote,
counted from `crc_calc_buf[0]` (empty when no copy is made). -/
structure adc_read (σ : Type) where
  ret : Int
  adc_data : List Nat
  desc : spi_desc σ
  crc_calc_buf : List Nat

/-- The result of `ad77681_setup`: status, `*device` when it is assigned, and
the calls of the transport made during the call, oldest first. -/
structure setup_result (σ : Type) where
  ret : Int
  device : Option (ad77681_dev × spi_desc σ)
  calls : List spi_call

/-- An automatic array of `n` bytes before its first store. -/
def auto_array {σ : Type} (E : spi_engine σ) (desc : spi_desc σ) (n : Nat) : List Nat :=
  (List.range n).map (fun k => u8 (E.indeterminate desc.st k))

/-- `memcpy(dst, src, n)` on values: the first `n` bytes of `src` followed by
what `dst` holds past them. When `n` exceeds the size of `dst` the result is
longer than `dst`: the excess bytes are those written past its end. -/
def memcpy (dst src : List Nat) (n : Nat) : List Nat :=
  src.take n ++ dst.drop n

/-- The objects next to an automatic array of `size` bytes once `content` has
been stored from its first byte on: as they were when the content fits, and what
the platform makes of the bytes stored past the end when it does not. -/
def past_the_end {σ : Type} (E : spi_engine σ) (desc : spi_desc σ) (size : Nat)
    (content : List Nat) (locals : adc_locals) : adc_locals :=
  if content.length ≤ size then locals else E.overrun desc.st (content.drop size) locals

/-- The call `ad77681_compute_xor(data, data_size, init_val)` as the driver
makes it: the checksum, and the descriptor with the call recorded. -/
def compute_xor_call {σ : Type} (desc : spi_desc σ) (data : List Nat)
    (data_size init_val : Nat) : Nat × spi_desc σ :=
  let run := compute_xor_run data data_size init_val
  (ad77681_compute_xor data data_size init_val,
    { desc with xors := desc.xors ++ [⟨data_size, run.2.cells.length, run.2.stores⟩] })

/-- `spi_write_and_read(desc, data, bytes_number)`: the first `bytes_number`
bytes of `data` are exchanged for the bytes received, and the call is recorded. -/
def spi_write_and_read {σ : Type} (E : spi_engine σ) (desc : spi_desc σ)
    (data : List Nat) (bytes_number : Nat) : xfer σ :=
  let r := E.write_and_read desc.st (data.take bytes_number)
  { ret := r.ret
    buf := (List.range bytes_number).map (fun k => u8 (r.rx k)) ++ data.drop bytes_number
    desc := { desc with
              st := r.st
              calls := desc.calls ++ [⟨data.length, bytes_number, data.take bytes_number⟩] } }

/-! ## Register transactions -/

/-- `ad77681_spi_reg_read(dev, reg_addr, reg_data)`; `reg_data` is the caller's
array as it is before the call. -/
def ad77681_spi_reg_read {σ : Type} (H : ad77681_h) (E : spi_engine σ) (dev : ad77681_dev)
    (desc : spi_desc σ) (reg_addr : Nat) (reg_data : List Nat) : xfer σ :=
  let buf_len := if dev.crc_sel = AD77681_NO_CRC then 2 else 3
  let buf := auto_array E desc 3
  let buf := buf.set 0 (u8 (H.AD77681_REG_READ reg_addr))
  let buf := buf.set 1 0x00
  let x := spi_write_and_read E desc buf buf_len
  if x.ret < 0 then
    { ret := x.ret, buf := reg_data, desc := x.desc }
  else
    let buf := x.buf
    if dev.crc_sel ≠ AD77681_NO_CRC then
      let crc_buf := [u8 (H.AD77681_REG_READ reg_addr), buf.getD 1 0]
      let crc :=
        if dev.crc_sel = AD77681_XOR then
          compute_xor_call x.desc crc_buf 2 INITIAL_CRC
        else if dev.crc_sel = AD77681_CRC then
          (ad77681_compute_crc8 H crc_buf 2 INITIAL_CRC, x.desc)
        else (u8 (E.indeterminate x.desc.st 0), x.desc)
      let ret := if crc.1 ≠ buf.getD 2 0 then FAILURE else x.ret
      { ret := ret, buf := memcpy reg_data buf 3, desc := crc.2 }
    else
      { ret := x.ret, buf := memcpy reg_data buf 3, desc := x.desc }

/-- `ad77681_spi_reg_write(dev, reg_addr, reg_data)`. -/
def ad77681_spi_reg_write {σ : Type} (H : ad77681_h) (E : spi_engine σ) (dev : ad77681_dev)
    (desc : spi_desc σ) (reg_addr reg_data : Nat) : status σ :=
  let buf_len := if dev.crc_sel = AD77681_NO_CRC then 2 else 3
  let buf := auto_array E desc 3
  let buf := buf.set 0 (u8 (H.AD77681_REG_WRITE reg_addr))
  let buf := buf.set 1 (u8 reg_data)
  let buf :=
    if dev.crc_sel ≠ AD77681_NO_CRC then
      buf.set 2 (ad77681_compute_crc8 H buf 2 INITIAL_CRC)
    else buf
  let x := spi_write_and_read E desc buf buf_len
  { ret := x.ret, desc := x.desc }

/-- `ad77681_spi_read_mask(dev, reg_addr, mask, data)`. -/
def ad77681_spi_read_mask {σ : Type} (H : ad77681_h) (E : spi_engine σ) (dev : ad77681_dev)
    (desc : spi_desc σ) (reg_addr mask : Nat) : masked σ :=
  let reg_data := auto_array E desc 3
  let x := ad77681_spi_reg_read H E dev desc reg_addr reg_data
  { ret := x.ret, data := x.buf.getD 1 0 &&& u8 mask, desc := x.desc }

/-- `ad77681_spi_write_mask(dev, reg_addr, mask, data)`; the call is recorded
with its status. -/
def ad77681_spi_write_mask {σ : Type} (H : ad77681_h) (E : spi_engine σ) (dev : ad77681_dev)
    (desc : spi_desc σ) (reg_addr mask data : Nat) : status σ :=
  let reg_data := auto_array E desc 3
  let x := ad77681_spi_reg_read H E dev desc reg_addr reg_data
  let reg_data := x.buf
  let reg_data := reg_data.set 1 (reg_data.getD 1 0 &&& u8_not mask)
  let reg_data := reg_data.set 1 (reg_data.getD 1 0 ||| u8 data)
  let w := ad77681_spi_reg_write H E dev x.desc reg_addr (reg_data.getD 1 0)
  let ret := Int.lor x.ret w.ret
  { ret := ret
    desc := { w.desc with writes := w.desc.writes ++ [⟨reg_addr, mask, data, ret⟩] } }

/-! ## Frame geometry -/

/-- `ad77681_get_rx_buf_len(dev)`. -/
def ad77681_get_rx_buf_len (dev : ad77681_dev) : Nat :=
  let data_len := 3
  let crc := if dev.crc_sel = AD77681_NO_CRC then 0 else 1
  let status_bit := if dev.status_bit then 1 else 0
  u8 (data_len + crc + status_bit)

/-- `ad77681_get_frame_16bit(dev)`: the value returned and the device structure
after the store into `data_frame_16bit`. -/
def ad77681_get_frame_16bit (dev : ad77681_dev) : Nat × ad77681_dev :=
  let frame_bytes := if dev.conv_len = AD77681_CONV_24BIT then 3 else 2
  let frame_bytes := if dev.crc_sel ≠ AD77681_NO_CRC then u8 (frame_bytes + 1) else frame_bytes
  let frame_bytes := if dev.status_bit then u8 (frame_bytes + 1) else frame_bytes
  let frame_16bit := if frame_bytes % 2 ≠ 0 then u8 (frame_bytes / 2 + 1) else frame_bytes / 2
  (frame_16bit, { dev with data_frame_16bit := frame_16bit })

/-! ## Conversion data -/

/-- `ad77681_spi_read_adc_data(dev, adc_data)`; `adc_data` is the caller's array
as it is before the call. In mode CRC8 the copy into `crc_calc_buf` (4 bytes)
stores the 6 bytes of `buf`: what `ret` and `buf` hold afterwards is what the
platform makes of the two bytes stored past the end (`past_the_end`). -/
def ad77681_spi_read_adc_data {σ : Type} (H : ad77681_h) (E : spi_engine σ)
    (dev : ad77681_dev) (desc : spi_desc σ) (adc_data : List Nat) : adc_read σ :=
  let crc_calc_buf := auto_array E desc 4
  let frames_8byte := 0
  let frames_8byte :=
    if dev.conv_len = AD77681_CONV_24BIT then u8 (frames_8byte + 3) else u8 (frames_8byte + 2)
  let frames_8byte :=
    if dev.crc_sel ≠ AD77681_NO_CRC then u8 (frames_8byte + 1) else frames_8byte
  let frames_8byte := if dev.status_bit then u8 (frames_8byte + 1) else frames_8byte
  let buf := [u8 (H.AD77681_REG_READ H.AD77681_REG_ADC_DATA), 0x00, 0x00, 0x00, 0x00, 0x00]
  let x := spi_write_and_read E desc buf (frames_8byte + 1)
  if x.ret < 0 then
    { ret := x.ret, adc_data := adc_data, desc := x.desc, crc_calc_buf := [] }
  else
    let buf := x.buf
    if dev.crc_sel = AD77681_CRC then
      let size := crc_calc_buf.length
      let crc_calc_buf := memcpy crc_calc_buf buf 6
      let locals := past_the_end E x.desc size crc_calc_buf { ret := x.ret, buf := buf }
      let crc := ad77681_compute_crc8 H crc_calc_buf 4 INITIAL_CRC
      let ret := if crc ≠ locals.buf.getD 3 0 then FAILURE else locals.ret
      { ret := ret, adc_data := memcpy adc_data locals.buf 6, desc := x.desc,
        crc_calc_buf := crc_calc_buf }
    else
      { ret := x.ret, adc_data := memcpy adc_data buf 6, desc := x.desc, crc_calc_buf := [] }

/-! ## Configuration -/

/-- `ad77681_set_power_mode(dev, mode)`. -/
def ad77681_set_power_mode {σ : Type} (H : ad77681_h) (E : spi_engine σ) (dev : ad77681_dev)
    (desc : spi_desc σ) (mode : ad77681_power_mode) : dev_status σ :=
  let ret : Int := 0
  let w := ad77681_spi_write_mask H E dev desc H.AD77681_REG_POWER_CLOCK
    H.AD77681_POWER_CLK_PWRMODE_MSK (H.AD77681_POWER_CLK_PWRMODE mode)
  { ret := Int.lor ret w.ret, dev := dev, desc := w.desc }

/-- `ad77681_set_mclk_div(dev, clk_div)`. -/
def ad77681_set_mclk_div {σ : Type} (H : ad77681_h) (E : spi_engine σ) (dev : ad77681_dev)
    (desc : spi_desc σ) (clk_div : ad77681_mclk_div) : dev_status σ :=
  let w := ad77681_spi_write_mask H E dev desc H.AD77681_REG_POWER_CLOCK
    H.AD77681_POWER_CLK_MCLK_DIV_MSK (H.AD77681_POWER_CLK_MCLK_DIV clk_div)
  { ret := 0, dev := { dev with mclk_div := clk_div }, desc := w.desc }

/-- `ad77681_set_conv_mode(dev, conv_mode, diag_mux_sel, conv_diag_sel)`. -/
def ad77681_set_conv_mode {σ : Type} (H : ad77681_h) (E : spi_engine σ) (dev : ad77681_dev)
    (desc : spi_desc σ) (conv_mode : ad77681_conv_mode)
    (diag_mux_sel : ad77681_conv_diag_mux) (conv_diag_sel : Bool) : dev_status σ :=
  let w1 := ad77681_spi_write_mask H E dev desc H.AD77681_REG_CONVERSION
    H.AD77681_CONVERSION_MODE_MSK (H.AD77681_CONVERSION_MODE conv_mode)
  let w2 := ad77681_spi_write_mask H E dev w1.desc H.AD77681_REG_CONVERSION
    H.AD77681_CONVERSION_DIAG_MUX_MSK (H.AD77681_CONVERSION_DIAG_MUX_SEL diag_mux_sel)
  let w3 := ad77681_spi_write_mask H E dev w2.desc H.AD77681_REG_CONVERSION
    H.AD77681_CONVERSION_DIAG_SEL_MSK (H.AD77681_CONVERSION_DIAG_SEL conv_diag_sel)
  { ret := 0
    dev := { dev with conv_mode := conv_mode, diag_mux_sel := diag_mux_sel,
                      conv_diag_sel := conv_diag_sel }
    desc := w3.desc }

/-- `ad77681_set_convlen(dev, conv_len)`. -/
def ad77681_set_convlen {σ : Type} (H : ad77681_h) (E : spi_engine σ) (dev : ad77681_dev)
    (desc : spi_desc σ) (conv_len : ad77681_conv_len) : dev_status σ :=
  let w := ad77681_spi_write_mask H E dev desc H.AD77681_REG_INTERFACE_FORMAT
    H.AD77681_INTERFACE_CONVLEN_MSK (H.AD77681_INTERFACE_CONVLEN conv_len)
  let ret := w.ret
  if ret = SUCCESS then
    let dev := { dev with conv_len := conv_len }
    { ret := ret, dev := (ad77681_get_frame_16bit dev).2, desc := w.desc }
  else
    { ret := ret, dev := dev, desc := w.desc }

/-- `ad77681_set_crc_sel(dev, crc_sel)`. -/
def ad77681_set_crc_sel {σ : Type} (H : ad77681_h) (E : spi_engine σ) (dev : ad77681_dev)
    (desc : spi_desc σ) (crc_sel : ad77681_crc_sel) : dev_status σ :=
  let w : status σ :=
    if crc_sel = AD77681_NO_CRC then
      ad77681_spi_write_mask H E dev desc H.AD77681_REG_INTERFACE_FORMAT
        H.AD77681_INTERFACE_CRC_EN_MSK (H.AD77681_INTERFACE_CRC_EN 0)
    else
      let w1 := ad77681_spi_write_mask H E dev desc H.AD77681_REG_INTERFACE_FORMAT
        H.AD77681_INTERFACE_CRC_EN_MSK (H.AD77681_INTERFACE_CRC_EN 1)
      let w2 := ad77681_spi_write_mask H E dev w1.desc H.AD77681_REG_INTERFACE_FORMAT
        H.AD77681_INTERFACE_CRC_TYPE_MSK (H.AD77681_INTERFACE_CRC_TYPE crc_sel)
      { ret := Int.lor w1.ret w2.ret, desc := w2.desc }
  let ret := w.ret
  if ret = SUCCESS then
    let dev := { dev with crc_sel := crc_sel }
    { ret := ret, dev := (ad77681_get_frame_16bit dev).2, desc := w.desc }
  else
    { ret := ret, dev := dev, desc := w.desc }

/-- `ad77681_set_status_bit(dev, status_bit)`. -/
def ad77681_set_status_bit {σ : Type} (H : ad77681_h) (E : spi_engine σ) (dev : ad77681_dev)
    (desc : spi_desc σ) (status_bit : Bool) : dev_status σ :=
  let w := ad77681_spi_write_mask H E dev desc H.AD77681_REG_INTERFACE_FORMAT
    H.AD77681_INTERFACE_STATUS_EN_MSK (H.AD77681_INTERFACE_STATUS_EN status_bit)
  let ret := w.ret
  if ret = SUCCESS then
    let dev := { dev with status_bit := status_bit }
    { ret := ret, dev := (ad77681_get_frame_16bit dev).2, desc := w.desc }
  else
    { ret := ret, dev := dev, desc := w.desc }

/-- `ad77681_soft_reset(dev)`. -/
def ad77681_soft_reset {σ : Type} (H : ad77681_h) (E : spi_engine σ) (dev : ad77681_dev)
    (desc : spi_desc σ) : dev_status σ :=
  let ret : Int := 0
  let w1 := ad77681_spi_write_mask H E dev desc H.AD77681_REG_SYNC_RESET
    H.AD77681_SYNC_RST_SPI_RESET_MSK (H.AD77681_SYNC_RST_SPI_RESET 0x3)
  let ret := Int.lor ret w1.ret
  let w2 := ad77681_spi_write_mask H E dev w1.desc H.AD77681_REG_SYNC_RESET
    H.AD77681_SYNC_RST_SPI_RESET_MSK (H.AD77681_SYNC_RST_SPI_RESET 0x2)
  let ret := Int.lor ret w2.ret
  { ret := ret, dev := dev, desc := w2.desc }

/-- `ad77681_setup(device, init_param)`. `malloc` is the outcome of the
allocation: `none` when it fails, else the content of the fresh block, which the
C library leaves unspecified. `spi_init` is the outcome of the initialisation of
the SPI engine: its status and the state the engine starts in. -/
def ad77681_setup {σ : Type} (H : ad77681_h) (E : spi_engine σ) (malloc : Option ad77681_dev)
    (init_param : ad77681_init_param) (spi_init : Int × σ) : setup_result σ :=
  match malloc with
  | none => { ret := -1, device := none, calls := [] }
  | some block =>
    let dev : ad77681_dev :=
      { block with
        power_mode := init_param.power_mode
        mclk_div := init_param.mclk_div
        conv_diag_sel := init_param.conv_diag_sel
        conv_mode := init_param.conv_mode
        diag_mux_sel := init_param.diag_mux_sel
        conv_len := init_param.conv_len
        crc_sel := init_param.crc_sel
        status_bit := init_param.status_bit }
    let ret := spi_init.1
    if ret < 0 then { ret := ret, device := none, calls := [] }
    else
      let desc : spi_desc σ := { st := spi_init.2, calls := [], writes := [] }
      let r1 := ad77681_soft_reset H E dev desc
      let ret := Int.lor ret r1.ret
      let r2 := ad77681_set_power_mode H E r1.dev r1.desc r1.dev.power_mode
      let ret := Int.lor ret r2.ret
      let r3 := ad77681_set_mclk_div H E r2.dev r2.desc r2.dev.mclk_div
      let ret := Int.lor ret r3.ret
      let r4 := ad77681_set_conv_mode H E r3.dev r3.desc r3.dev.conv_mode r3.dev.diag_mux_sel
        r3.dev.conv_diag_sel
      let ret := Int.lor ret r4.ret
      let r5 := ad77681_set_convlen H E r4.dev r4.desc r4.dev.conv_len
      let ret := Int.lor ret r5.ret
      let r6 := ad77681_set_status_bit H E r5.dev r5.desc r5.dev.status_bit
      let ret := Int.lor ret r6.ret
      let r7 := ad77681_set_crc_sel H E r6.dev r6.desc r6.dev.crc_sel
      let ret := Int.lor ret r7.ret
      { ret := ret, device := some (r7.dev, r7.desc), calls := r7.desc.calls }

/-! ## Vocabulary of the properties -/

/-- One iteration of the bit loop of `ad77681_compute_crc8` as a function of the
data bit (`crc8_bit_eq_step`). -/
def crc8_step (H : ad77681_h) (crc : Nat) (b : Bool) : Nat :=
  if (decide (crc &&& 0x80 ≠ 0)) != b then
    u8 (u8 (crc <<< 1) ^^^ H.AD77681_CRC8_POLY)
  else
    u8 (crc <<< 1)

/-- The data bits of a byte in the order in which the bit loop visits them. -/
def data_bits (byte : Nat) : List Bool :=
  [0x80, 0x40, 0x20, 0x10, 0x08, 0x04, 0x02, 0x01].map (fun i => decide (byte &&& i ≠ 0))

/-- The CRC before an iteration of the bit loop, recovered from the CRC after it
and the data bit, for the polynomial 0x07 (`crc8_unstep7_step`). -/
def crc8_unstep7 (r : Nat) (b : Bool) : Nat :=
  if r % 2 = 1 then (r ^^^ 7) / 2 + (if b then 0 else 128)
  else r / 2 + (if b then 128 else 0)

/-- The buffer with one bit flipped: bit `k % 8` of the byte at index `k / 8`. -/
def flip_bit (data : List Nat) (k : Nat) : List Nat :=
  data.set (k / 8) (data.getD (k / 8) 0 ^^^ 2 ^ (k % 8))

/-- Modelled from the spec: a header to evaluate the driver with, since
`ad77681.h` is not among the sources. The polynomial is 0x07 and the command
byte has bit 6 set for a read and clear for a write, with the register address
in bits 0-5; the register addresses, field positions and enumeration values are
those of the AD7768-1 register map. -/
def ad77681_regmap : ad77681_h where
  AD77681_CRC8_POLY := 0x07
  AD77681_REG_READ := fun x => 0x40 ||| (x &&& 0x3F)
  AD77681_REG_WRITE := fun x => x &&& 0x3F
  AD77681_REG_ADC_DATA := 0x2C
  AD77681_REG_POWER_CLOCK := 0x15
  AD77681_POWER_CLK_PWRMODE_MSK := 0x3
  AD77681_POWER_CLK_PWRMODE := fun m =>
    match m with
    | AD77681_ECO => 0
    | AD77681_MEDIAN => 2
    | AD77681_FAST => 3
  AD77681_POWER_CLK_MCLK_DIV_MSK := 0x3 <<< 4
  AD77681_POWER_CLK_MCLK_DIV := fun d =>
    match d with
    | AD77681_MCLK_DIV_16 => 0 <<< 4
    | AD77681_MCLK_DIV_8 => 1 <<< 4
    | AD77681_MCLK_DIV_4 => 2 <<< 4
    | AD77681_MCLK_DIV_2 => 3 <<< 4
  AD77681_REG_CONVERSION := 0x18
  AD77681_CONVERSION_MODE_MSK := 0x7
  AD77681_CONVERSION_MODE := fun m =>
    match m with
    | AD77681_CONV_CONTINUOUS => 0
    | AD77681_CONV_ONE_SHOT => 1
    | AD77681_CONV_SINGLE => 2
    | AD77681_CONV_PERIODIC => 3
  AD77681_CONVERSION_DIAG_MUX_MSK := 0xF <<< 4
  AD77681_CONVERSION_DIAG_MUX_SEL := fun m =>
    match m with
    | AD77681_TEMP_SENSOR => 0x0 <<< 4
    | AD77681_AIN_SHORT => 0x8 <<< 4
    | AD77681_POSITIVE_FS => 0x9 <<< 4
    | AD77681_NEGATIVE_FS => 0xA <<< 4
  AD77681_CONVERSION_DIAG_SEL_MSK := 0x1 <<< 3
  AD77681_CONVERSION_DIAG_SEL := fun b => if b then 0x1 <<< 3 else 0
  AD77681_REG_INTERFACE_FORMAT := 0x14
  AD77681_INTERFACE_CONVLEN_MSK := 0x1 <<< 3
  AD77681_INTERFACE_CONVLEN := fun l =>
    match l with
    | AD77681_CONV_24BIT => 0
    | AD77681_CONV_16BIT => 0x1 <<< 3
  AD77681_INTERFACE_CRC_EN_MSK := 0x1 <<< 6
  AD77681_INTERFACE_CRC_EN := fun x => (x &&& 0x1) <<< 6
  AD77681_INTERFACE_CRC_TYPE_MSK := 0x1 <<< 5
  AD77681_INTERFACE_CRC_TYPE := fun c =>
    match c with
    | AD77681_CRC => 0
    | AD77681_XOR => 0x1 <<< 5
    | AD77681_NO_CRC => 0
  AD77681_INTERFACE_STATUS_EN_MSK := 0x1 <<< 4
  AD77681_INTERFACE_STATUS_EN := fun b => if b then 0x1 <<< 4 else 0
  AD77681_REG_SYNC_RESET := 0x1D
  AD77681_SYNC_RST_SPI_RESET_MSK := 0x3
  AD77681_SYNC_RST_SPI_RESET := fun x => x &&& 0x3

/-- The frame of a register read: the command byte, a zero byte and, in the
checksum modes, a third byte that the driver sends as it finds it. -/
def reg_read_frame {σ : Type} (H : ad77681_h) (E : spi_engine σ) (dev : ad77681_dev)
    (desc : spi_desc σ) (reg_addr : Nat) : List Nat :=
  if dev.crc_sel = AD77681_NO_CRC then [u8 (H.AD77681_REG_READ reg_addr), 0]
  else [u8 (H.AD77681_REG_READ reg_addr), 0, u8 (E.indeterminate desc.st 2)]

/-- The checksum of a byte list under a checksum mode, seed 0: the algorithm
the mode selects for read transactions (0 when there is none). -/
def read_checksum (H : ad77681_h) (mode : ad77681_crc_sel) (bytes : List Nat) : Nat :=
  match mode with
  | AD77681_XOR => ad77681_compute_xor bytes bytes.length 0
  | AD77681_CRC => ad77681_compute_crc8 H bytes bytes.length 0
  | AD77681_NO_CRC => 0

/-- The lossless transport of the round-trip property: the device as a register
file. The command byte is decoded as the spec gives it (bit 6 set: read;
address in bits 0-5). A read returns the stored byte at position 1 and, at
position 2, its checksum with the command byte in the mode `mode`; a write
stores the payload byte; every exchange succeeds. -/
def regfile_engine (H : ad77681_h) (mode : ad77681_crc_sel) (junk : Nat → Nat) :
    spi_engine (Nat → Nat) where
  write_and_read := fun regs frame =>
    let cmd := frame.getD 0 0
    let addr := cmd &&& 0x3F
    if cmd &&& 0x40 ≠ 0 then
      { ret := 0
        rx := fun k =>
          if k = 1 then regs addr
          else if k = 2 then read_checksum H mode [cmd, u8 (regs addr)]
          else 0
        st := regs }
    else
      { ret := 0
        rx := fun _ => 0
        st := fun a => if a = addr then frame.getD 1 0 else regs a }
  indeterminate := fun _ k => junk k
  overrun := fun _ _ locals => locals

/-- A transport on which every exchange fails with status -1. -/
def dead_engine : spi_engine Unit where
  write_and_read := fun _ _ => { ret := -1, rx := fun _ => 0, st := () }
  indeterminate := fun _ _ => 0
  overrun := fun _ _ locals => locals

/-- A device structure with the given frame geometry (the other fields are
immaterial to the framing). -/
def dev_with (conv_len : ad77681_conv_len) (crc_sel : ad77681_crc_sel) (status_bit : Bool)
    (data_frame_16bit : Nat) : ad77681_dev where
  power_mode := AD77681_ECO
  mclk_div := AD77681_MCLK_DIV_16
  conv_mode := AD77681_CONV_CONTINUOUS
  diag_mux_sel := AD77681_TEMP_SENSOR
  conv_diag_sel := false
  conv_len := conv_len
  crc_sel := crc_sel
  status_bit := status_bit
  data_frame_16bit := data_frame_16bit

/-- A register file that holds 0x48 at address 0x14 and 0 elsewhere. -/
def regs_0x14 : Nat → Nat := fun a => if a = 0x14 then 0x48 else 0

/-- The frame of a register write: the command byte, the value and, in the
checksum modes, the CRC-8 of the two. -/
def reg_write_frame (H : ad77681_h) (dev : ad77681_dev) (reg_addr reg_data : Nat) : List Nat :=
  if dev.crc_sel = AD77681_NO_CRC then [u8 (H.AD77681_REG_WRITE reg_addr), u8 reg_data]
  else [u8 (H.AD77681_REG_WRITE reg_addr), u8 reg_data,
    ad77681_compute_crc8 H [u8 (H.AD77681_REG_WRITE reg_addr), u8 reg_data] 2 0]

/-- Modelled from the spec: the conversion frame length in bytes by the
additive rule of the frame geometry, "base = 3 if `sample_width == 24-bit` else
2; +1 if `checksum_mode != None`; +1 if `status_byte_enabled`". -/
def conversion_frame_length_bytes (dev : ad77681_dev) : Nat :=
  (if dev.conv_len = AD77681_CONV_24BIT then 3 else 2)
    + (if dev.crc_sel ≠ AD77681_NO_CRC then 1 else 0)
    + (if dev.status_bit then 1 else 0)

/-- The descriptor of a register file that holds `regs`, before any call. -/
def regfile_desc (regs : Nat → Nat) : spi_desc (Nat → Nat) :=
  { st := regs, calls := [], writes := [] }

/-- The frame of a conversion read: the command byte followed by one zero byte
per byte of the conversion frame. -/
def adc_read_frame (H : ad77681_h) (dev : ad77681_dev) : List Nat :=
  u8 (H.AD77681_REG_READ H.AD77681_REG_ADC_DATA)
    :: List.replicate (conversion_frame_length_bytes dev) 0

/-- The six-byte array of a conversion read after the exchange: the bytes
received, then the zero bytes that were not clocked. -/
def adc_exchanged (dev : ad77681_dev) (rx : Nat → Nat) : List Nat :=
  (List.range (conversion_frame_length_bytes dev + 1)).map (fun k => u8 (rx k))
    ++ List.replicate (5 - conversion_frame_length_bytes dev) 0

/-- The initialisation parameters with the given frame geometry (the other
fields are immaterial to the framing). -/
def init_with (conv_len : ad77681_conv_len) (crc_sel : ad77681_crc_sel) (status_bit : Bool) :
    ad77681_init_param where
  power_mode := AD77681_ECO
  mclk_div := AD77681_MCLK_DIV_16
  conv_mode := AD77681_CONV_CONTINUOUS
  diag_mux_sel := AD77681_TEMP_SENSOR
  conv_diag_sel := false
  conv_len := conv_len
  crc_sel := crc_sel
  status_bit := status_bit

/-- The descriptor of the dead transport before any call. -/
def dead_desc : spi_desc Unit :=
  { st := (), calls := [], writes := [] }

/-- The cached number of 16-bit frames agrees with the frame geometry of the
device structure. -/
def frame_16bit_valid (dev : ad77681_dev) : Prop :=
  dev.data_frame_16bit = (conversion_frame_length_bytes dev + 1) / 2

/-- A call of one of the configuration functions, with its arguments. -/
inductive setter_call where
  | set_power_mode (mode : ad77681_power_mode)
  | set_mclk_div (clk_div : ad77681_mclk_div)
  | set_conv_mode (conv_mode : ad77681_conv_mode) (diag_mux_sel : ad77681_conv_diag_mux)
      (conv_diag_sel : Bool)
  | set_convlen (conv_len : ad77681_conv_len)
  | set_crc_sel (crc_sel : ad77681_crc_sel)
  | set_status_bit (status_bit : Bool)
  | soft_reset

/-- One call of a configuration function on a device. -/
def run_setter {σ : Type} (H : ad77681_h) (E : spi_engine σ) (dev : ad77681_dev)
    (desc : spi_desc σ) : setter_call → dev_status σ
  | .set_power_mode mode => ad77681_set_power_mode H E dev desc mode
  | .set_mclk_div clk_div => ad77681_set_mclk_div H E dev desc clk_div
  | .set_conv_mode conv_mode diag_mux_sel conv_diag_sel =>
    ad77681_set_conv_mode H E dev desc conv_mode diag_mux_sel conv_diag_sel
  | .set_convlen conv_len => ad77681_set_convlen H E dev desc conv_len
  | .set_crc_sel crc_sel => ad77681_set_crc_sel H E dev desc crc_sel
  | .set_status_bit status_bit => ad77681_set_status_bit H E dev desc status_bit
  | .soft_reset => ad77681_soft_reset H E dev desc

/-- A sequence of calls of configuration functions on a device, in order; the
statuses are dropped. -/
def run_setters {σ : Type} (H : ad77681_h) (E : spi_engine σ) :
    ad77681_dev × spi_desc σ → List setter_call → ad77681_dev × spi_desc σ
  | s, [] => s
  | s, c :: cs =>
    run_setters H E ((run_setter H E s.1 s.2 c).dev, (run_setter H E s.1 s.2 c).desc) cs

instance (dev : ad77681_dev) : Decidable (frame_16bit_valid dev) :=
  inferInstanceAs (Decidable (dev.data_frame_16bit = (conversion_frame_length_bytes dev + 1) / 2))

/-- Modelled from the spec: one shift of the standard byte-wise CRC-8,
"crc := (crc << 1) XOR poly if the top bit was set, else crc << 1 (all modulo
2^8)". -/
def crc8_shift (poly crc : Nat) : Nat :=
  if crc &&& 0x80 ≠ 0 then u8 ((crc <<< 1) ^^^ poly) else u8 (crc <<< 1)

/-- Modelled from the spec: the standard byte-wise MSB-first CRC-8 with no final
XOR, "for each byte, crc := crc XOR byte, then eight times" the shift. -/
def crc8_bytewise (poly : Nat) : List Nat → Nat → Nat
  | [], crc => crc
  | byte :: data, crc => crc8_bytewise poly data (Nat.iterate (crc8_shift poly) 8 (crc ^^^ byte))

/-- The top bits that `n` left shifts of a byte bring out, first shift first. -/
def msb_bits : Nat → Nat → List Bool
  | 0, _ => []
  | n + 1, e => decide (e &&& 0x80 ≠ 0) :: msb_bits n (u8 (e <<< 1))

/-- A transport that succeeds on every exchange and answers with the given
bytes. -/
def fixed_engine (bytes : List Nat) : spi_engine Unit where
  write_and_read := fun _ _ => { ret := 0, rx := fun k => bytes.getD k 0, st := () }
  indeterminate := fun _ _ => 0
  overrun := fun _ _ locals => locals

/-- A frame in which `crc` and then `ret` follow `crc_calc_buf`: of two bytes
stored past the end of the array, the first lands on `crc` and the second on the
low byte of `ret`. -/
def ret_after_scratch (excess : List Nat) (locals : adc_locals) : adc_locals :=
  { locals with ret := locals.ret - locals.ret % 256 + (excess.getD 1 0 : Nat) }

/-- A frame in which `buf` follows `crc_calc_buf`: the bytes stored past the end
of the array land on the first bytes of `buf`. -/
def buf_after_scratch (excess : List Nat) (locals : adc_locals) : adc_locals :=
  { locals with buf := memcpy locals.buf excess excess.length }

/-- The transport `fixed_engine bytes` on a platform whose frame has the given
layout. -/
def layout_engine (bytes : List Nat) (layout : List Nat → adc_locals → adc_locals) :
    spi_engine Unit where
  write_and_read := fun _ _ => { ret := 0, rx := fun k => bytes.getD k 0, st := () }
  indeterminate := fun _ _ => 0
  overrun := fun _ excess locals => layout excess locals

/-- The descriptor of a transport without state, before any call. -/
def unit_desc : spi_desc Unit :=
  { st := (), calls := [], writes := [] }

/-- The bitwise OR of the statuses of a list of masked writes. -/
def or_statuses (ws : List masked_write) : Int :=
  ws.foldl (fun acc w => Int.lor acc w.ret) 0

/-- The arguments of a masked write: register, mask, field value. -/
def write_args (w : masked_write) : Nat × Nat × Nat :=
  (w.reg_addr, w.mask, w.data)

/-- The command bytes of the two transactions of a masked write of a register:
the read, then the write. -/
def write_cmds (H : ad77681_h) (args : Nat × Nat × Nat) : List Nat :=
  [u8 (H.AD77681_REG_READ args.1), u8 (H.AD77681_REG_WRITE args.1)]

/-- The masked writes of a call of a configuration function, by their
arguments, in order. -/
def setter_writes (H : ad77681_h) : setter_call → List (Nat × Nat × Nat)
  | .set_power_mode mode =>
    [(H.AD77681_REG_POWER_CLOCK, H.AD77681_POWER_CLK_PWRMODE_MSK,
      H.AD77681_POWER_CLK_PWRMODE mode)]
  | .set_mclk_div clk_div =>
    [(H.AD77681_REG_POWER_CLOCK, H.AD77681_POWER_CLK_MCLK_DIV_MSK,
      H.AD77681_POWER_CLK_MCLK_DIV clk_div)]
  | .set_conv_mode conv_mode diag_mux_sel conv_diag_sel =>
    [(H.AD77681_REG_CONVERSION, H.AD77681_CONVERSION_MODE_MSK,
        H.AD77681_CONVERSION_MODE conv_mode),
      (H.AD77681_REG_CONVERSION, H.AD77681_CONVERSION_DIAG_MUX_MSK,
        H.AD77681_CONVERSION_DIAG_MUX_SEL diag_mux_sel),
      (H.AD77681_REG_CONVERSION, H.AD77681_CONVERSION_DIAG_SEL_MSK,
        H.AD77681_CONVERSION_DIAG_SEL conv_diag_sel)]
  | .set_convlen conv_len =>
    [(H.AD77681_REG_INTERFACE_FORMAT, H.AD77681_INTERFACE_CONVLEN_MSK,
      H.AD77681_INTERFACE_CONVLEN conv_len)]
  | .set_crc_sel crc_sel =>
    if crc_sel = AD77681_NO_CRC then
      [(H.AD77681_REG_INTERFACE_FORMAT, H.AD77681_INTERFACE_CRC_EN_MSK,
        H.AD77681_INTERFACE_CRC_EN 0)]
    else
      [(H.AD77681_REG_INTERFACE_FORMAT, H.AD77681_INTERFACE_CRC_EN_MSK,
          H.AD77681_INTERFACE_CRC_EN 1),
        (H.AD77681_REG_INTERFACE_FORMAT, H.AD77681_INTERFACE_CRC_TYPE_MSK,
          H.AD77681_INTERFACE_CRC_TYPE crc_sel)]
  | .set_status_bit status_bit =>
    [(H.AD77681_REG_INTERFACE_FORMAT, H.AD77681_INTERFACE_STATUS_EN_MSK,
      H.AD77681_INTERFACE_STATUS_EN status_bit)]
  | .soft_reset =>
    [(H.AD77681_REG_SYNC_RESET, H.AD77681_SYNC_RST_SPI_RESET_MSK,
        H.AD77681_SYNC_RST_SPI_RESET 0x3),
      (H.AD77681_REG_SYNC_RESET, H.AD77681_SYNC_RST_SPI_RESET_MSK,
        H.AD77681_SYNC_RST_SPI_RESET 0x2)]

/-- The device structure of `ad77681_setup` after the assignments from the
parameters: the allocated block with the eight configuration fields set. -/
def setup_dev (block : ad77681_dev) (init_param : ad77681_init_param) : ad77681_dev :=
  { block with
    power_mode := init_param.power_mode
    mclk_div := init_param.mclk_div
    conv_diag_sel := init_param.conv_diag_sel
    conv_mode := init_param.conv_mode
    diag_mux_sel := init_param.diag_mux_sel
    conv_len := init_param.conv_len
    crc_sel := init_param.crc_sel
    status_bit := init_param.status_bit }

/-- The configuration steps of `ad77681_setup`, in order, with the arguments
taken from the parameters. -/
def setup_steps (init_param : ad77681_init_param) : List setter_call :=
  [.soft_reset,
    .set_power_mode init_param.power_mode,
    .set_mclk_div init_param.mclk_div,
    .set_conv_mode init_param.conv_mode init_param.diag_mux_sel init_param.conv_diag_sel,
    .set_convlen init_param.conv_len,
    .set_status_bit init_param.status_bit,
    .set_crc_sel init_param.crc_sel]

/-- The objects `ret` and `buf` of a conversion read in mode CRC8 after the copy
into `crc_calc_buf`, when the exchange was answered by `r`: what the platform
makes of the two bytes stored past the end of the four-byte array. -/
def adc_clobbered {σ : Type} (E : spi_engine σ) (dev : ad77681_dev) (r : spi_reply σ) :
    adc_locals :=
  E.overrun r.st ((adc_exchanged dev r.rx).drop 4)
    { ret := r.ret, buf := adc_exchanged dev r.rx }

/-- A device structure with 24-bit samples, CRC8 and the status byte: six bytes
are exchanged in a conversion read. -/
def dev_crc_status : ad77681_dev := dev_with AD77681_CONV_24BIT AD77681_CRC true 3

/-- The calls of `ad77681_compute_xor` recorded between two descriptors stay
within the scratch array of the function: each passes a length that is at most
the size of the array, which is 3, and stores at indices below it. -/
def xors_within {σ : Type} (before after : spi_desc σ) : Prop :=
  ∃ l, after.xors = before.xors ++ l ∧
    ∀ c ∈ l, c.data_size ≤ c.capacity ∧ c.capacity = 3 ∧ ∀ k ∈ c.stores, k < c.capacity

/-! ## Theorems -/

/-! ### Checksum engine -/

theorem u8_lt (x : Nat) : u8 x < 256 := Nat.mod_lt _ (by decide)

theorem crc8_bit_eq_step (H : ad77681_h) (crc byte i : Nat) :
    crc8_bit H crc byte i = crc8_step H crc (decide (byte &&& i ≠ 0)) := rfl

theorem crc8_step_lt (H : ad77681_h) (crc : Nat) (b : Bool) : crc8_step H crc b < 256 := by
  unfold crc8_step
  split <;> exact u8_lt _

/-- The bit loop visits the eight masks 0x80, ..., 0x01 and then leaves by its
own condition: eight iterations are all it takes, whatever fuel is left. -/
theorem crc8_bit_loop_fuel (H : ad77681_h) (byte crc fuel : Nat) (hfuel : 8 ≤ fuel) :
    crc8_bit_loop H byte fuel 0x80 crc = (data_bits byte).foldl (crc8_step H) crc := by
  obtain ⟨extra, rfl⟩ : ∃ extra, fuel = extra + 8 := ⟨fuel - 8, by omega⟩
  cases extra <;> rfl

theorem crc8_bit_loop_eq (H : ad77681_h) (byte crc : Nat) :
    crc8_bit_loop H byte 8 0x80 crc = (data_bits byte).foldl (crc8_step H) crc :=
  crc8_bit_loop_fuel H byte crc 8 (Nat.le_refl 8)

theorem crc8_unstep7_step_aux :
    ∀ c, c < 256 → ∀ b : Bool,
      crc8_unstep7 (if (decide (c &&& 0x80 ≠ 0)) != b then (c <<< 1 % 256 ^^^ 7) % 256
        else c <<< 1 % 256) b = c := by
  decide

theorem crc8_unstep7_step (H : ad77681_h) (hpoly : H.AD77681_CRC8_POLY = 0x07) (c : Nat)
    (hc : c < 256) (b : Bool) : crc8_unstep7 (crc8_step H c b) b = c := by
  have h := crc8_unstep7_step_aux c hc b
  simpa [crc8_step, u8, hpoly] using h

/-- The loop of `ad77681_compute_xor` leaves by its own condition: the
`data_size - i` iterations it makes from index `i` are all it takes, whatever
fuel is left. -/
theorem compute_xor_loop_fuel (data_size fuel i : Nat) (buf : auto_bytes) (data : List Nat)
    (crc : Nat) (hfuel : data_size - i ≤ fuel) :
    compute_xor_loop data_size fuel i buf data crc =
      compute_xor_loop data_size (data_size - i) i buf data crc := by
  induction fuel generalizing i buf data crc with
  | zero =>
    have h0 : data_size - i = 0 := by omega
    rw [h0]
  | succ n ih =>
    by_cases hi : i < data_size
    · obtain ⟨m, hm⟩ : ∃ m, data_size - i = m + 1 := ⟨data_size - i - 1, by omega⟩
      have hm2 : data_size - (i + 1) = m := by omega
      rw [hm, compute_xor_loop, compute_xor_loop, if_pos hi, if_pos hi, ← hm2]
      exact ih _ _ _ _ (by omega)
    · have h0 : data_size - i = 0 := by omega
      rw [h0]
      simp [compute_xor_loop, hi]

/-- C1: for every buffer, every length `n ≤ 3` within the buffer and every
seed, `ad77681_compute_xor` is the seed XORed with the first `n` bytes of the
buffer (and the seed itself when `n = 0`). -/
theorem ad77681_compute_xor_spec (data : List Nat) (n seed : Nat)
    (hn : n ≤ 3) (hlen : n ≤ data.length) :
    ad77681_compute_xor data n seed = (data.take n).foldl (fun acc b => acc ^^^ b) seed := by
  unfold ad77681_compute_xor compute_xor_run
  have h3 : n = 0 ∨ n = 1 ∨ n = 2 ∨ n = 3 := by omega
  rcases h3 with rfl | rfl | rfl | rfl
  · rfl
  · match data, hlen with
    | d0 :: rest, _ => simp [compute_xor_loop, array_store]
  · match data, hlen with
    | d0 :: d1 :: rest, _ => simp [compute_xor_loop, array_store]
  · match data, hlen with
    | d0 :: d1 :: d2 :: rest, _ => simp [compute_xor_loop, array_store]

/-- C1, evaluated: three bytes XORed into the seed 0x0F. -/
theorem ad77681_compute_xor_spec_witness :
    3 ≤ 3 ∧ 3 ≤ [0x41, 0x12, 0xF0].length ∧
      ad77681_compute_xor [0x41, 0x12, 0xF0] 3 0x0F =
        ([0x41, 0x12, 0xF0].take 3).foldl (fun acc b => acc ^^^ b) 0x0F :=
  ⟨by decide, by decide,
    ad77681_compute_xor_spec [0x41, 0x12, 0xF0] 3 0x0F (by decide) (by decide)⟩

theorem crc8_step7_flip_aux :
    ∀ c, c < 256 → ∀ b : Bool,
      (if (decide (c &&& 0x80 ≠ 0)) != (!b) then (c <<< 1 % 256 ^^^ 7) % 256
        else c <<< 1 % 256) ≠
      (if (decide (c &&& 0x80 ≠ 0)) != b then (c <<< 1 % 256 ^^^ 7) % 256
        else c <<< 1 % 256) := by
  decide

theorem crc8_step_flip (H : ad77681_h) (hpoly : H.AD77681_CRC8_POLY = 0x07) (c : Nat)
    (hc : c < 256) (b : Bool) : crc8_step H c (!b) ≠ crc8_step H c b := by
  have h := crc8_step7_flip_aux c hc b
  simpa [crc8_step, u8, hpoly] using h

theorem crc8_step_inj (H : ad77681_h) (hpoly : H.AD77681_CRC8_POLY = 0x07) (c1 c2 : Nat)
    (h1 : c1 < 256) (h2 : c2 < 256) (b : Bool) (h : crc8_step H c1 b = crc8_step H c2 b) :
    c1 = c2 := by
  have e1 := crc8_unstep7_step H hpoly c1 h1 b
  have e2 := crc8_unstep7_step H hpoly c2 h2 b
  rw [h] at e1
  exact e1.symm.trans e2

theorem crc8_foldl_lt (H : ad77681_h) (bs : List Bool) (c : Nat) (hc : c < 256) :
    bs.foldl (crc8_step H) c < 256 := by
  induction bs generalizing c with
  | nil => simpa using hc
  | cons b bs ih => exact ih _ (crc8_step_lt H c b)

/-- Two different CRC values stay different over any run of data bits. -/
theorem crc8_foldl_inj (H : ad77681_h) (hpoly : H.AD77681_CRC8_POLY = 0x07) (bs : List Bool)
    (c1 c2 : Nat) (h1 : c1 < 256) (h2 : c2 < 256) (hne : c1 ≠ c2) :
    bs.foldl (crc8_step H) c1 ≠ bs.foldl (crc8_step H) c2 := by
  induction bs generalizing c1 c2 with
  | nil => simpa using hne
  | cons b bs ih =>
    simp only [List.foldl_cons]
    apply ih _ _ (crc8_step_lt H c1 b) (crc8_step_lt H c2 b)
    intro h
    exact hne (crc8_step_inj H hpoly c1 c2 h1 h2 b h)

/-- Negating one data bit of a run changes the CRC after the run. -/
theorem crc8_foldl_flip (H : ad77681_h) (hpoly : H.AD77681_CRC8_POLY = 0x07) (bs : List Bool)
    (i c : Nat) (hi : i < bs.length) (hc : c < 256) :
    (bs.set i (!(bs.getD i false))).foldl (crc8_step H) c ≠ bs.foldl (crc8_step H) c := by
  induction bs generalizing i c with
  | nil => simp at hi
  | cons b bs ih =>
    cases i with
    | zero =>
      simp only [List.set_cons_zero, List.getD_cons_zero, List.foldl_cons]
      exact crc8_foldl_inj H hpoly bs _ _ (crc8_step_lt H c _) (crc8_step_lt H c _)
        (crc8_step_flip H hpoly c hc b)
    | succ i =>
      simp only [List.set_cons_succ, List.getD_cons_succ, List.foldl_cons]
      exact ih i _ (by simpa using hi) (crc8_step_lt H c b)

theorem data_bits_flip_aux :
    ∀ d, d < 256 → ∀ j, j < 8 →
      data_bits (d ^^^ 2 ^ j) = (data_bits d).set (7 - j) (!((data_bits d).getD (7 - j) false)) := by
  decide

/-- Flipping one bit of a byte changes the CRC after the byte. -/
theorem crc8_byte_flip (H : ad77681_h) (hpoly : H.AD77681_CRC8_POLY = 0x07) (d j c : Nat)
    (hd : d < 256) (hj : j < 8) (hc : c < 256) :
    crc8_bit_loop H (d ^^^ 2 ^ j) 8 0x80 c ≠ crc8_bit_loop H d 8 0x80 c := by
  rw [crc8_bit_loop_eq, crc8_bit_loop_eq, data_bits_flip_aux d hd j hj]
  exact crc8_foldl_flip H hpoly (data_bits d) (7 - j) c (by simp [data_bits]; omega) hc

theorem crc8_byte_lt (H : ad77681_h) (d c : Nat) (hc : c < 256) :
    crc8_bit_loop H d 8 0x80 c < 256 := by
  rw [crc8_bit_loop_eq]
  exact crc8_foldl_lt H _ c hc

theorem crc8_byte_inj (H : ad77681_h) (hpoly : H.AD77681_CRC8_POLY = 0x07) (d c1 c2 : Nat)
    (h1 : c1 < 256) (h2 : c2 < 256) (hne : c1 ≠ c2) :
    crc8_bit_loop H d 8 0x80 c1 ≠ crc8_bit_loop H d 8 0x80 c2 := by
  rw [crc8_bit_loop_eq, crc8_bit_loop_eq]
  exact crc8_foldl_inj H hpoly _ c1 c2 h1 h2 hne

theorem ad77681_compute_crc8_lt (H : ad77681_h) (data : List Nat) (n c : Nat) (hc : c < 256) :
    ad77681_compute_crc8 H data n c < 256 := by
  induction n generalizing data c with
  | zero => simpa [ad77681_compute_crc8] using hc
  | succ n ih =>
    rw [ad77681_compute_crc8]
    exact ih _ _ (crc8_byte_lt H _ c hc)

/-- Two different seeds give different CRCs over the same data. -/
theorem ad77681_compute_crc8_inj (H : ad77681_h) (hpoly : H.AD77681_CRC8_POLY = 0x07)
    (data : List Nat) (n c1 c2 : Nat) (h1 : c1 < 256) (h2 : c2 < 256) (hne : c1 ≠ c2) :
    ad77681_compute_crc8 H data n c1 ≠ ad77681_compute_crc8 H data n c2 := by
  induction n generalizing data c1 c2 with
  | zero => simpa [ad77681_compute_crc8] using hne
  | succ n ih =>
    rw [ad77681_compute_crc8, ad77681_compute_crc8]
    exact ih _ _ _ (crc8_byte_lt H _ c1 h1) (crc8_byte_lt H _ c2 h2)
      (crc8_byte_inj H hpoly _ c1 c2 h1 h2 hne)

/-- C2: with the polynomial constant 0x07, for every seed byte, every length
`n` in 1..255, every buffer of `n` bytes and every bit position `k < 8 * n`,
flipping bit `k` of the buffer changes the value of `ad77681_compute_crc8`. -/
theorem ad77681_compute_crc8_bit_flip (H : ad77681_h) (hpoly : H.AD77681_CRC8_POLY = 0x07)
    (data : List Nat) (n seed k : Nat) (hn1 : 1 ≤ n) (hn : n ≤ 255) (hlen : data.length = n)
    (hbytes : ∀ b ∈ data, b < 256) (hseed : seed < 256) (hk : k < 8 * n) :
    ad77681_compute_crc8 H (flip_bit data k) n seed ≠ ad77681_compute_crc8 H data n seed := by
  clear hn1 hn
  induction n generalizing data seed k with
  | zero => omega
  | succ n ih =>
    match data, hlen, hbytes with
    | d :: rest, hlen, hbytes =>
      have hd : d < 256 := hbytes d (by simp)
      have hrest : ∀ b ∈ rest, b < 256 := fun b hb => hbytes b (by simp [hb])
      have hlen2 : rest.length = n := by simpa using hlen
      by_cases hk8 : k < 8
      · have e : flip_bit (d :: rest) k = (d ^^^ 2 ^ k) :: rest := by
          simp [flip_bit, Nat.div_eq_of_lt hk8, Nat.mod_eq_of_lt hk8]
        rw [e, ad77681_compute_crc8, ad77681_compute_crc8]
        simp only [List.headD_cons, List.tail_cons]
        exact ad77681_compute_crc8_inj H hpoly rest n _ _ (crc8_byte_lt H _ seed hseed)
          (crc8_byte_lt H _ seed hseed) (crc8_byte_flip H hpoly d k seed hd hk8 hseed)
      · have hk8 : 8 ≤ k := by omega
        have e : flip_bit (d :: rest) k = d :: flip_bit rest (k - 8) := by
          obtain ⟨m, rfl⟩ : ∃ m, k = m + 8 := ⟨k - 8, by omega⟩
          simp [flip_bit, Nat.add_div_right, Nat.add_mod_right]
        rw [e, ad77681_compute_crc8, ad77681_compute_crc8]
        simp only [List.headD_cons, List.tail_cons]
        exact ih rest _ (k - 8) hlen2 hrest (crc8_byte_lt H _ seed hseed) (by omega)

/-- C2, evaluated: flipping bit 3 of the two-byte frame of a read of register
0x02 changes its CRC. -/
theorem ad77681_compute_crc8_bit_flip_witness :
    ad77681_regmap.AD77681_CRC8_POLY = 0x07 ∧ 1 ≤ 2 ∧ 2 ≤ 255 ∧ [0x42, 0x00].length = 2 ∧
      (∀ b ∈ [0x42, 0x00], b < 256) ∧ 0 < 256 ∧ 3 < 8 * 2 ∧
      ad77681_compute_crc8 ad77681_regmap (flip_bit [0x42, 0x00] 3) 2 0 ≠
        ad77681_compute_crc8 ad77681_regmap [0x42, 0x00] 2 0 :=
  ⟨rfl, by decide, by decide, rfl, by decide, by decide, by decide,
    ad77681_compute_crc8_bit_flip ad77681_regmap rfl [0x42, 0x00] 2 0 3 (by decide) (by decide)
      rfl (by decide) (by decide) (by decide)⟩

/-! ### Register transactions -/

theorem memcpy_three (dst : List Nat) (a b c : Nat) :
    memcpy dst [a, b, c] 3 = [a, b, c] ++ dst.drop 3 := rfl

/-- C3: for every register address and every response of a successful
exchange (one call of the transport, on the frame of a register read),
`ad77681_spi_reg_read` returns `FAILURE` in the modes XOR and CRC8 if and only
if response byte 2 differs from the checksum (seed 0, the algorithm of
the mode) of the command byte and response byte 1; in both outcomes the three
response bytes are copied to the caller's array; in mode None the status is the
transport's, which is no failure. -/
theorem ad77681_spi_reg_read_checksum {σ : Type} (H : ad77681_h) (E : spi_engine σ)
    (dev : ad77681_dev) (desc : spi_desc σ) (reg_addr : Nat) (reg_data : List Nat)
    (hok : 0 ≤ (E.write_and_read desc.st (reg_read_frame H E dev desc reg_addr)).ret) :
    let r := E.write_and_read desc.st (reg_read_frame H E dev desc reg_addr)
    let out := ad77681_spi_reg_read H E dev desc reg_addr reg_data
    let cmd := u8 (H.AD77681_REG_READ reg_addr)
    out.desc.calls = desc.calls ++
      [⟨3, if dev.crc_sel = AD77681_NO_CRC then 2 else 3,
        reg_read_frame H E dev desc reg_addr⟩] ∧
    (dev.crc_sel = AD77681_XOR →
      (out.ret = FAILURE ↔ u8 (r.rx 2) ≠ ad77681_compute_xor [cmd, u8 (r.rx 1)] 2 0) ∧
      out.buf = [u8 (r.rx 0), u8 (r.rx 1), u8 (r.rx 2)] ++ reg_data.drop 3) ∧
    (dev.crc_sel = AD77681_CRC →
      (out.ret = FAILURE ↔ u8 (r.rx 2) ≠ ad77681_compute_crc8 H [cmd, u8 (r.rx 1)] 2 0) ∧
      out.buf = [u8 (r.rx 0), u8 (r.rx 1), u8 (r.rx 2)] ++ reg_data.drop 3) ∧
    (dev.crc_sel = AD77681_NO_CRC →
      out.ret = r.ret ∧ out.ret ≠ FAILURE ∧
      out.buf = [u8 (r.rx 0), u8 (r.rx 1), u8 (E.indeterminate desc.st 2)] ++ reg_data.drop 3) := by
  intro r out cmd
  have hnf : ¬ r.ret < 0 := not_lt.mpr hok
  have hne : r.ret ≠ FAILURE := by
    intro h
    rw [h] at hnf
    exact hnf (by decide)
  refine ⟨?_, fun hm => ?_, fun hm => ?_, fun hm => ?_⟩
  · by_cases hm : dev.crc_sel = AD77681_NO_CRC
    · have hr : r = E.write_and_read desc.st [u8 (H.AD77681_REG_READ reg_addr), 0] := by
        simp [r, reg_read_frame, hm]
      simp [out, ad77681_spi_reg_read, compute_xor_call, spi_write_and_read, auto_array, hm,
        List.range_succ, ← hr, hnf, reg_read_frame]
    · have hr : r = E.write_and_read desc.st
          [u8 (H.AD77681_REG_READ reg_addr), 0, u8 (E.indeterminate desc.st 2)] := by
        simp [r, reg_read_frame, hm]
      simp [out, ad77681_spi_reg_read, compute_xor_call, spi_write_and_read, auto_array, hm,
        List.range_succ, ← hr, hnf, reg_read_frame]
      split_ifs <;> rfl
  · have hr : r = E.write_and_read desc.st
        [u8 (H.AD77681_REG_READ reg_addr), 0, u8 (E.indeterminate desc.st 2)] := by
      simp [r, reg_read_frame, hm]
    have e : out.ret = if ad77681_compute_xor [cmd, u8 (r.rx 1)] 2 0 ≠ u8 (r.rx 2)
        then FAILURE else r.ret := by
      simp [out, ad77681_spi_reg_read, compute_xor_call, spi_write_and_read, auto_array, hm,
        List.range_succ, memcpy, INITIAL_CRC, ← hr, hnf, cmd]
    have e2 : out.buf = [u8 (r.rx 0), u8 (r.rx 1), u8 (r.rx 2)] ++ reg_data.drop 3 := by
      simp [out, ad77681_spi_reg_read, compute_xor_call, spi_write_and_read, auto_array, hm,
        List.range_succ, memcpy, INITIAL_CRC, ← hr, hnf, cmd]
    refine ⟨?_, e2⟩
    rw [e]
    by_cases hc : ad77681_compute_xor [cmd, u8 (r.rx 1)] 2 0 = u8 (r.rx 2)
    · simp [hc, hne]
    · simp [hc, Ne.symm hc]
  · have hr : r = E.write_and_read desc.st
        [u8 (H.AD77681_REG_READ reg_addr), 0, u8 (E.indeterminate desc.st 2)] := by
      simp [r, reg_read_frame, hm]
    have e : out.ret = if ad77681_compute_crc8 H [cmd, u8 (r.rx 1)] 2 0 ≠ u8 (r.rx 2)
        then FAILURE else r.ret := by
      simp [out, ad77681_spi_reg_read, compute_xor_call, spi_write_and_read, auto_array, hm,
        List.range_succ, memcpy, INITIAL_CRC, ← hr, hnf, cmd]
    have e2 : out.buf = [u8 (r.rx 0), u8 (r.rx 1), u8 (r.rx 2)] ++ reg_data.drop 3 := by
      simp [out, ad77681_spi_reg_read, compute_xor_call, spi_write_and_read, auto_array, hm,
        List.range_succ, memcpy, INITIAL_CRC, ← hr, hnf, cmd]
    refine ⟨?_, e2⟩
    rw [e]
    by_cases hc : ad77681_compute_crc8 H [cmd, u8 (r.rx 1)] 2 0 = u8 (r.rx 2)
    · simp [hc, hne]
    · simp [hc, Ne.symm hc]
  · have hr : r = E.write_and_read desc.st [u8 (H.AD77681_REG_READ reg_addr), 0] := by
      simp [r, reg_read_frame, hm]
    have e : out.ret = r.ret := by
      simp [out, ad77681_spi_reg_read, compute_xor_call, spi_write_and_read, auto_array, hm,
        List.range_succ, memcpy, ← hr, hnf]
    have e2 : out.buf =
        [u8 (r.rx 0), u8 (r.rx 1), u8 (E.indeterminate desc.st 2)] ++ reg_data.drop 3 := by
      simp [out, ad77681_spi_reg_read, compute_xor_call, spi_write_and_read, auto_array, hm,
        List.range_succ, memcpy, ← hr, hnf]
    exact ⟨e, e ▸ hne, e2⟩

/-- C3, evaluated: CRC8 mode, register 0x14 of a register file that answers with
the right checksum. -/
theorem ad77681_spi_reg_read_checksum_witness :
    0 ≤ ((regfile_engine ad77681_regmap AD77681_CRC (fun _ => 0)).write_and_read regs_0x14
        (reg_read_frame ad77681_regmap (regfile_engine ad77681_regmap AD77681_CRC (fun _ => 0))
          (dev_with AD77681_CONV_24BIT AD77681_CRC false 2) (regfile_desc regs_0x14) 0x14)).ret ∧
      (ad77681_spi_reg_read ad77681_regmap (regfile_engine ad77681_regmap AD77681_CRC (fun _ => 0))
        (dev_with AD77681_CONV_24BIT AD77681_CRC false 2) (regfile_desc regs_0x14) 0x14 [0, 0, 0]).buf
        = [0, 0x48, 0xA7] :=
  ⟨by decide,
    ((ad77681_spi_reg_read_checksum ad77681_regmap
      (regfile_engine ad77681_regmap AD77681_CRC (fun _ => 0))
      (dev_with AD77681_CONV_24BIT AD77681_CRC false 2) (regfile_desc regs_0x14) 0x14 [0, 0, 0]
      (by decide)).2.2.1 rfl).2.trans (by rfl)⟩

/-- C4: `ad77681_spi_reg_write` makes one call of the transport, on its
three-byte array; the frame starts with the command byte and the value; it is 2
bytes long in mode None and 3 bytes long otherwise, the third byte being the
CRC-8 (seed 0) of the first two in mode XOR as in mode CRC8; the status
returned is the transport's. -/
theorem ad77681_spi_reg_write_frame {σ : Type} (H : ad77681_h) (E : spi_engine σ)
    (dev : ad77681_dev) (desc : spi_desc σ) (reg_addr reg_data : Nat) :
    let out := ad77681_spi_reg_write H E dev desc reg_addr reg_data
    let frame := reg_write_frame H dev reg_addr reg_data
    out.desc.calls = desc.calls ++
      [⟨3, if dev.crc_sel = AD77681_NO_CRC then 2 else 3, frame⟩] ∧
    frame.length = (if dev.crc_sel = AD77681_NO_CRC then 2 else 3) ∧
    frame.take 2 = [u8 (H.AD77681_REG_WRITE reg_addr), u8 reg_data] ∧
    (dev.crc_sel ≠ AD77681_NO_CRC →
      frame.drop 2 =
        [ad77681_compute_crc8 H [u8 (H.AD77681_REG_WRITE reg_addr), u8 reg_data] 2 0]) ∧
    out.ret = (E.write_and_read desc.st frame).ret ∧
    out.desc.st = (E.write_and_read desc.st frame).st := by
  intro out frame
  by_cases hm : dev.crc_sel = AD77681_NO_CRC
  · simp [out, frame, reg_write_frame, ad77681_spi_reg_write, spi_write_and_read, auto_array, hm,
      List.range_succ]
  · simp [out, frame, reg_write_frame, ad77681_spi_reg_write, spi_write_and_read, auto_array, hm,
      List.range_succ, ad77681_compute_crc8, INITIAL_CRC]

theorem u8_of_lt (x : Nat) (h : x < 256) : u8 x = x := Nat.mod_eq_of_lt h

theorem ad77681_compute_xor_two_lt (a b : Nat) (ha : a < 256) (hb : b < 256) :
    ad77681_compute_xor [a, b] 2 0 < 256 := by
  have e : ad77681_compute_xor [a, b] 2 0 = (0 ^^^ a) ^^^ b := by
    simp [ad77681_compute_xor, compute_xor_run, compute_xor_loop, array_store]
  rw [e]
  exact Nat.xor_lt_two_pow (n := 8) (Nat.xor_lt_two_pow (n := 8) (by decide) ha) hb

theorem read_checksum_lt (H : ad77681_h) (mode : ad77681_crc_sel) (a b : Nat) (ha : a < 256)
    (hb : b < 256) : read_checksum H mode [a, b] < 256 := by
  cases mode
  · exact ad77681_compute_crc8_lt H _ _ 0 (by decide)
  · exact ad77681_compute_xor_two_lt a b ha hb
  · show 0 < 256
    decide

theorem read_checksum_crc (H : ad77681_h) (a b : Nat) :
    read_checksum H AD77681_CRC [a, b] = ad77681_compute_crc8 H [a, b] 2 0 := rfl

theorem read_checksum_xor (H : ad77681_h) (a b : Nat) :
    read_checksum H AD77681_XOR [a, b] = ad77681_compute_xor [a, b] 2 0 := rfl

/-- A register read over the register file succeeds, returns the stored byte
and leaves the register file as it is. -/
theorem regfile_reg_read (H : ad77681_h) (hR : ∀ a, u8 (H.AD77681_REG_READ a) &&& 0x40 ≠ 0)
    (junk : Nat → Nat) (dev : ad77681_dev) (desc : spi_desc (Nat → Nat)) (reg_addr : Nat)
    (reg_data : List Nat) :
    let out := ad77681_spi_reg_read H (regfile_engine H dev.crc_sel junk) dev desc reg_addr
      reg_data
    out.ret = 0 ∧
      (∃ a c, out.buf =
        a :: u8 (desc.st (u8 (H.AD77681_REG_READ reg_addr) &&& 0x3F)) :: c :: reg_data.drop 3) ∧
      out.desc.st = desc.st := by
  intro out
  have hR1 := hR reg_addr
  have hck := read_checksum_lt H dev.crc_sel (u8 (H.AD77681_REG_READ reg_addr))
    (u8 (desc.st (u8 (H.AD77681_REG_READ reg_addr) &&& 0x3F))) (u8_lt _) (u8_lt _)
  rcases hcs : dev.crc_sel with _ | _ | _
  · rw [hcs, read_checksum_crc] at hck
    simp [out, ad77681_spi_reg_read, compute_xor_call, spi_write_and_read, regfile_engine,
      auto_array, List.range_succ, memcpy, hcs, hR1, INITIAL_CRC, read_checksum_crc, u8_of_lt _ hck]
  · rw [hcs, read_checksum_xor] at hck
    simp [out, ad77681_spi_reg_read, compute_xor_call, spi_write_and_read, regfile_engine,
      auto_array, List.range_succ, memcpy, hcs, hR1, INITIAL_CRC, read_checksum_xor, u8_of_lt _ hck]
  · simp [out, ad77681_spi_reg_read, compute_xor_call, spi_write_and_read, regfile_engine,
      auto_array, List.range_succ, memcpy, hcs, hR1]

/-- A register write over the register file succeeds and stores the value. -/
theorem regfile_reg_write (H : ad77681_h) (hW : ∀ a, u8 (H.AD77681_REG_WRITE a) &&& 0x40 = 0)
    (junk : Nat → Nat) (dev : ad77681_dev) (desc : spi_desc (Nat → Nat))
    (reg_addr reg_data : Nat) :
    let out := ad77681_spi_reg_write H (regfile_engine H dev.crc_sel junk) dev desc reg_addr
      reg_data
    out.ret = 0 ∧
      out.desc.st = fun a =>
        if a = u8 (H.AD77681_REG_WRITE reg_addr) &&& 0x3F then u8 reg_data else desc.st a := by
  intro out
  have hW1 := hW reg_addr
  by_cases hcs : dev.crc_sel = AD77681_NO_CRC
  · simp [out, ad77681_spi_reg_write, spi_write_and_read, regfile_engine, auto_array,
      List.range_succ, hcs, hW1]
  · simp [out, ad77681_spi_reg_write, spi_write_and_read, regfile_engine, auto_array,
      List.range_succ, hcs, hW1]

theorem u8_not_lt (m : Nat) : u8_not m < 256 := by
  unfold u8_not
  omega

theorem u8_not_testBit (m i : Nat) (hm : m < 256) :
    (u8_not m).testBit i = (decide (i < 8) && !m.testBit i) := by
  have h := Nat.testBit_two_pow_sub_succ (x := m) (n := 8) hm i
  have e : u8_not m = 2 ^ 8 - (m + 1) := by
    unfold u8_not
    rw [Nat.mod_eq_of_lt hm]
    omega
  rw [e, h]

theorem mask_merge_and (v m f : Nat) (hm : m < 256) :
    ((v &&& u8_not m) ||| f) &&& m = f &&& m := by
  apply Nat.eq_of_testBit_eq
  intro i
  simp only [Nat.testBit_and, Nat.testBit_or, u8_not_testBit m i hm]
  cases v.testBit i <;> cases m.testBit i <;> cases f.testBit i <;> simp

theorem mask_merge_not (v m f : Nat) (hm : m < 256) (hf : f &&& u8_not m = 0) :
    ((v &&& u8_not m) ||| f) &&& u8_not m = v &&& u8_not m := by
  rw [Nat.and_distrib_right, hf, Nat.and_assoc, Nat.and_self, Nat.or_zero]

/-- A masked write over the register file succeeds and stores
`(V & ~mask) | data`, where `V` is the byte the register held. -/
theorem regfile_write_mask (H : ad77681_h) (hR : ∀ a, u8 (H.AD77681_REG_READ a) &&& 0x40 ≠ 0)
    (hW : ∀ a, u8 (H.AD77681_REG_WRITE a) &&& 0x40 = 0)
    (hA : ∀ a, u8 (H.AD77681_REG_READ a) &&& 0x3F = u8 (H.AD77681_REG_WRITE a) &&& 0x3F)
    (junk : Nat → Nat) (dev : ad77681_dev) (desc : spi_desc (Nat → Nat))
    (reg_addr mask data : Nat) (hdata : data < 256) :
    let out := ad77681_spi_write_mask H (regfile_engine H dev.crc_sel junk) dev desc reg_addr
      mask data
    out.ret = 0 ∧
      out.desc.st = fun a =>
        if a = u8 (H.AD77681_REG_WRITE reg_addr) &&& 0x3F then
          (u8 (desc.st (u8 (H.AD77681_REG_WRITE reg_addr) &&& 0x3F)) &&& u8_not mask) ||| data
        else desc.st a := by
  intro out
  obtain ⟨h1, ⟨a, c, h2⟩, h3⟩ := regfile_reg_read H hR junk dev desc reg_addr
    (auto_array (regfile_engine H dev.crc_sel junk) desc 3)
  have hlt : (u8 (desc.st (u8 (H.AD77681_REG_WRITE reg_addr) &&& 0x3F)) &&& u8_not mask) |||
      data < 256 :=
    Nat.or_lt_two_pow (n := 8) (Nat.and_lt_two_pow _ (n := 8) (u8_not_lt mask)) hdata
  obtain ⟨w1, w2⟩ := regfile_reg_write H hW junk dev
    (ad77681_spi_reg_read H (regfile_engine H dev.crc_sel junk) dev desc reg_addr
      (auto_array (regfile_engine H dev.crc_sel junk) desc 3)).desc reg_addr
    ((u8 (desc.st (u8 (H.AD77681_REG_WRITE reg_addr) &&& 0x3F)) &&& u8_not mask) ||| data)
  simp only [out, ad77681_spi_write_mask, h1, h2, hA, List.set_cons_succ, List.set_cons_zero,
    List.getD_cons_succ, List.getD_cons_zero, u8_of_lt data hdata, w1, w2, h3, u8_of_lt _ hlt]
  exact ⟨by decide, trivial⟩

/-- C5 (amended): over the register file, for every register address, stored
byte `V`, mask byte and field byte, `ad77681_spi_write_mask` followed by
`ad77681_spi_read_mask` returns `field & mask`, and a full read of the register
then returns `(V & ~mask) | field`, whose bits outside the mask are those of
`V` whenever the field has no bit outside the mask. -/
theorem ad77681_spi_write_mask_round_trip (H : ad77681_h)
    (hR : ∀ a, u8 (H.AD77681_REG_READ a) &&& 0x40 ≠ 0)
    (hW : ∀ a, u8 (H.AD77681_REG_WRITE a) &&& 0x40 = 0)
    (hA : ∀ a, u8 (H.AD77681_REG_READ a) &&& 0x3F = u8 (H.AD77681_REG_WRITE a) &&& 0x3F)
    (junk : Nat → Nat) (dev : ad77681_dev) (desc : spi_desc (Nat → Nat))
    (reg_addr mask field : Nat) (reg_data : List Nat) (hmask : mask < 256)
    (hfield : field < 256) :
    let E := regfile_engine H dev.crc_sel junk
    let V := u8 (desc.st (u8 (H.AD77681_REG_WRITE reg_addr) &&& 0x3F))
    let w := ad77681_spi_write_mask H E dev desc reg_addr mask field
    let m := ad77681_spi_read_mask H E dev w.desc reg_addr mask
    let f := ad77681_spi_reg_read H E dev m.desc reg_addr reg_data
    w.ret = 0 ∧ m.ret = 0 ∧ m.data = field &&& mask ∧ f.ret = 0 ∧
      f.buf.getD 1 0 = (V &&& u8_not mask) ||| field ∧
      (field &&& u8_not mask = 0 → f.buf.getD 1 0 &&& u8_not mask = V &&& u8_not mask) := by
  intro E V w m f
  obtain ⟨w1, w2⟩ := regfile_write_mask H hR hW hA junk dev desc reg_addr mask field hfield
  have hV : V < 256 := u8_lt _
  have hlt : (V &&& u8_not mask) ||| field < 256 :=
    Nat.or_lt_two_pow (n := 8) (Nat.and_lt_two_pow _ (n := 8) (u8_not_lt mask)) hfield
  obtain ⟨m1, ⟨a, c, m2⟩, m3⟩ := regfile_reg_read H hR junk dev w.desc reg_addr
    (auto_array E w.desc 3)
  have hst : w.desc.st (u8 (H.AD77681_REG_READ reg_addr) &&& 0x3F) =
      (V &&& u8_not mask) ||| field := by
    show (ad77681_spi_write_mask H (regfile_engine H dev.crc_sel junk) dev desc reg_addr mask
      field).desc.st _ = _
    rw [w2, hA]
    simp [V]
  have hm_ret : m.ret = 0 := m1
  have hm_data : m.data = field &&& mask := by
    show (ad77681_spi_reg_read H E dev w.desc reg_addr (auto_array E w.desc 3)).buf.getD 1 0
      &&& u8 mask = _
    rw [m2, hst, u8_of_lt _ hlt, u8_of_lt _ hmask]
    simp only [List.getD_cons_succ, List.getD_cons_zero]
    exact mask_merge_and V mask field hmask
  have hm_st : m.desc.st = w.desc.st := m3
  obtain ⟨f1, ⟨a2, c2, f2⟩, f3⟩ := regfile_reg_read H hR junk dev m.desc reg_addr reg_data
  have hf : f.buf.getD 1 0 = (V &&& u8_not mask) ||| field := by
    show (ad77681_spi_reg_read H E dev m.desc reg_addr reg_data).buf.getD 1 0 = _
    rw [f2, hm_st, hst, u8_of_lt _ hlt]
    simp only [List.getD_cons_succ, List.getD_cons_zero]
  refine ⟨w1, hm_ret, hm_data, f1, hf, fun hin => ?_⟩
  rw [hf]
  exact mask_merge_not V mask field hmask hin

theorem regmap_read_bit (a : Nat) : u8 (ad77681_regmap.AD77681_REG_READ a) &&& 0x40 ≠ 0 := by
  have h : a &&& 0x3F < 64 := Nat.and_lt_two_pow a (n := 6) (by decide)
  have key : ∀ x, x < 64 → u8 (0x40 ||| x) &&& 0x40 ≠ 0 := by decide
  exact key _ h

theorem regmap_write_bit (a : Nat) : u8 (ad77681_regmap.AD77681_REG_WRITE a) &&& 0x40 = 0 := by
  have h : a &&& 0x3F < 64 := Nat.and_lt_two_pow a (n := 6) (by decide)
  have key : ∀ x, x < 64 → u8 x &&& 0x40 = 0 := by decide
  exact key _ h

theorem regmap_address (a : Nat) :
    u8 (ad77681_regmap.AD77681_REG_READ a) &&& 0x3F =
      u8 (ad77681_regmap.AD77681_REG_WRITE a) &&& 0x3F := by
  have h : a &&& 0x3F < 64 := Nat.and_lt_two_pow a (n := 6) (by decide)
  have key : ∀ x, x < 64 → u8 (0x40 ||| x) &&& 0x3F = u8 x &&& 0x3F := by decide
  exact key _ h

/-- C5 (amended), evaluated: register 0x14 holds 0x48; the field 0x05 under the
mask 0x0F reads back as 0x05. -/
theorem ad77681_spi_write_mask_round_trip_witness :
    (∀ a, u8 (ad77681_regmap.AD77681_REG_READ a) &&& 0x40 ≠ 0) ∧
    (∀ a, u8 (ad77681_regmap.AD77681_REG_WRITE a) &&& 0x40 = 0) ∧
    (∀ a, u8 (ad77681_regmap.AD77681_REG_READ a) &&& 0x3F =
      u8 (ad77681_regmap.AD77681_REG_WRITE a) &&& 0x3F) ∧
    0x0F < 256 ∧ 0x05 < 256 ∧
    (ad77681_spi_read_mask ad77681_regmap
      (regfile_engine ad77681_regmap AD77681_XOR (fun _ => 0))
      (dev_with AD77681_CONV_24BIT AD77681_XOR false 2)
      (ad77681_spi_write_mask ad77681_regmap
        (regfile_engine ad77681_regmap AD77681_XOR (fun _ => 0))
        (dev_with AD77681_CONV_24BIT AD77681_XOR false 2) (regfile_desc regs_0x14)
        0x14 0x0F 0x05).desc 0x14 0x0F).data = 0x05 &&& 0x0F :=
  ⟨regmap_read_bit, regmap_write_bit, regmap_address, by decide, by decide,
    (ad77681_spi_write_mask_round_trip ad77681_regmap regmap_read_bit regmap_write_bit
      regmap_address (fun _ => 0) (dev_with AD77681_CONV_24BIT AD77681_XOR false 2)
      (regfile_desc regs_0x14) 0x14 0x0F 0x05 [0, 0, 0] (by decide) (by decide)).2.2.1⟩

/-- C5 as stated fails: register 0x14 holds 0, the field 0xF0 is written
under the mask 0x0F; the masked read returns `field & mask`, but the full read
that follows returns 0xF0, whose bits outside the mask are not those of `V`. -/
theorem ad77681_spi_write_mask_round_trip_counterexample :
    ¬ ((ad77681_spi_reg_read ad77681_regmap
        (regfile_engine ad77681_regmap AD77681_NO_CRC (fun _ => 0))
        (dev_with AD77681_CONV_24BIT AD77681_NO_CRC false 2)
        (ad77681_spi_read_mask ad77681_regmap
          (regfile_engine ad77681_regmap AD77681_NO_CRC (fun _ => 0))
          (dev_with AD77681_CONV_24BIT AD77681_NO_CRC false 2)
          (ad77681_spi_write_mask ad77681_regmap
            (regfile_engine ad77681_regmap AD77681_NO_CRC (fun _ => 0))
            (dev_with AD77681_CONV_24BIT AD77681_NO_CRC false 2) (regfile_desc (fun _ => 0))
            0x14 0x0F 0xF0).desc 0x14 0x0F).desc 0x14 [0, 0, 0]).buf.getD 1 0 &&& u8_not 0x0F
      = 0 &&& u8_not 0x0F) := by
  decide

/-! ### Frame geometry -/

/-- C6: for every device structure (all 12 combinations of sample width,
checksum mode and status byte), `ad77681_get_frame_16bit` returns
`ceil(bytes / 2)`, stores it in `data_frame_16bit` and changes no other field,
where `bytes` is the frame length by the additive rule and lies in 2..5; with
24-bit samples, CRC8 and the status byte, `bytes` is 5 and the result is 3. -/
theorem ad77681_get_frame_16bit_spec (dev : ad77681_dev) :
    (ad77681_get_frame_16bit dev).1 = (conversion_frame_length_bytes dev + 1) / 2 ∧
    (ad77681_get_frame_16bit dev).2 =
      { dev with data_frame_16bit := (conversion_frame_length_bytes dev + 1) / 2 } ∧
    2 ≤ conversion_frame_length_bytes dev ∧ conversion_frame_length_bytes dev ≤ 5 ∧
    (∀ frame16, conversion_frame_length_bytes
        (dev_with AD77681_CONV_24BIT AD77681_CRC true frame16) = 5 ∧
      (ad77681_get_frame_16bit (dev_with AD77681_CONV_24BIT AD77681_CRC true frame16)).1 = 3) := by
  obtain ⟨pm, md, cm, dm, ds, cl, cs, sb, f16⟩ := dev
  refine ⟨?_, ?_, ?_, ?_, fun frame16 => ⟨by rfl, by simp [ad77681_get_frame_16bit, dev_with, u8]⟩⟩ <;>
    cases cl <;> cases cs <;> cases sb <;>
    simp [ad77681_get_frame_16bit, conversion_frame_length_bytes, u8]

/-! ### Conversion data -/

/-- The conversion read in terms of the frame it sends and of the array it gets
back. -/
theorem ad77681_spi_read_adc_data_eq {σ : Type} (H : ad77681_h) (E : spi_engine σ)
    (dev : ad77681_dev) (desc : spi_desc σ) (adc_data : List Nat) :
    ad77681_spi_read_adc_data H E dev desc adc_data =
      if (E.write_and_read desc.st (adc_read_frame H dev)).ret < 0 then
        { ret := (E.write_and_read desc.st (adc_read_frame H dev)).ret
          adc_data := adc_data
          desc := { desc with
                    st := (E.write_and_read desc.st (adc_read_frame H dev)).st
                    calls := desc.calls ++
                      [⟨6, conversion_frame_length_bytes dev + 1, adc_read_frame H dev⟩] }
          crc_calc_buf := [] }
      else if dev.crc_sel = AD77681_CRC then
        { ret :=
            if ad77681_compute_crc8 H
                ((adc_exchanged dev (E.write_and_read desc.st (adc_read_frame H dev)).rx).take 4)
                4 0
              ≠ (adc_clobbered E dev
                  (E.write_and_read desc.st (adc_read_frame H dev))).buf.getD 3 0
            then FAILURE
            else (adc_clobbered E dev (E.write_and_read desc.st (adc_read_frame H dev))).ret
          adc_data :=
            memcpy adc_data
              (adc_clobbered E dev (E.write_and_read desc.st (adc_read_frame H dev))).buf 6
          desc := { desc with
                    st := (E.write_and_read desc.st (adc_read_frame H dev)).st
                    calls := desc.calls ++
                      [⟨6, conversion_frame_length_bytes dev + 1, adc_read_frame H dev⟩] }
          crc_calc_buf :=
            adc_exchanged dev (E.write_and_read desc.st (adc_read_frame H dev)).rx }
      else
        { ret := (E.write_and_read desc.st (adc_read_frame H dev)).ret
          adc_data :=
            adc_exchanged dev (E.write_and_read desc.st (adc_read_frame H dev)).rx
              ++ adc_data.drop 6
          desc := { desc with
                    st := (E.write_and_read desc.st (adc_read_frame H dev)).st
                    calls := desc.calls ++
                      [⟨6, conversion_frame_length_bytes dev + 1, adc_read_frame H dev⟩] }
          crc_calc_buf := [] } := by
  obtain ⟨pm, md, cm, dm, ds, cl, cs, sb, f16⟩ := dev
  cases cl <;> cases cs <;> cases sb <;>
    simp [ad77681_spi_read_adc_data, spi_write_and_read, adc_read_frame, adc_exchanged,
      conversion_frame_length_bytes, u8, memcpy, List.range_succ, INITIAL_CRC,
      List.replicate, ad77681_compute_crc8, auto_array, past_the_end, adc_clobbered]

/-- C9, at the failing input. For every configuration and every response of an
exchange that does not fail, `ad77681_spi_read_adc_data` makes one call of the
transport, on its six-byte array, for `frames_8bit + 1` bytes (the command byte
followed by zero bytes), and in the modes XOR and None it returns the status of
the transport, which is no failure, and copies the six bytes of the array to the
caller. In mode CRC8 the copy into `crc_calc_buf` stores six bytes in the
four-byte array before the status is decided and before the array is copied to
the caller, so both are those of the objects the platform leaves (`adc_clobbered`).
With 24-bit samples, the status byte and the response 00 00 00 00 55 66, whose
CRC-8 over the first four bytes is its byte at offset 3: on a frame where `buf`
follows `crc_calc_buf` the caller receives 55 66 00 00 55 66, not the exchanged
bytes; on a frame where `ret` follows, the status returned is 102. -/
theorem ad77681_spi_read_adc_data_overrun :
    (∀ (σ : Type) (H : ad77681_h) (E : spi_engine σ) (dev : ad77681_dev) (desc : spi_desc σ)
        (adc_data : List Nat),
      0 ≤ (E.write_and_read desc.st (adc_read_frame H dev)).ret →
      (ad77681_spi_read_adc_data H E dev desc adc_data).desc.calls =
        desc.calls ++ [⟨6, conversion_frame_length_bytes dev + 1, adc_read_frame H dev⟩] ∧
      (adc_read_frame H dev).length = conversion_frame_length_bytes dev + 1 ∧
      (dev.crc_sel ≠ AD77681_CRC →
        (ad77681_spi_read_adc_data H E dev desc adc_data).ret =
          (E.write_and_read desc.st (adc_read_frame H dev)).ret ∧
        (ad77681_spi_read_adc_data H E dev desc adc_data).ret ≠ FAILURE ∧
        (ad77681_spi_read_adc_data H E dev desc adc_data).adc_data =
          adc_exchanged dev (E.write_and_read desc.st (adc_read_frame H dev)).rx
            ++ adc_data.drop 6) ∧
      (dev.crc_sel = AD77681_CRC →
        (ad77681_spi_read_adc_data H E dev desc adc_data).crc_calc_buf =
          adc_exchanged dev (E.write_and_read desc.st (adc_read_frame H dev)).rx ∧
        (ad77681_spi_read_adc_data H E dev desc adc_data).ret =
          (if ad77681_compute_crc8 H
                ((adc_exchanged dev
                  (E.write_and_read desc.st (adc_read_frame H dev)).rx).take 4) 4 0
              ≠ (adc_clobbered E dev
                  (E.write_and_read desc.st (adc_read_frame H dev))).buf.getD 3 0
            then FAILURE
            else (adc_clobbered E dev
              (E.write_and_read desc.st (adc_read_frame H dev))).ret) ∧
        (ad77681_spi_read_adc_data H E dev desc adc_data).adc_data =
          memcpy adc_data
            (adc_clobbered E dev (E.write_and_read desc.st (adc_read_frame H dev))).buf 6)) ∧
    adc_exchanged dev_crc_status (fun k => [0x00, 0x00, 0x00, 0x00, 0x55, 0x66].getD k 0) =
      [0x00, 0x00, 0x00, 0x00, 0x55, 0x66] ∧
    ad77681_compute_crc8 ad77681_regmap [0x00, 0x00, 0x00, 0x00] 4 0 = 0x00 ∧
    (ad77681_spi_read_adc_data ad77681_regmap
      (layout_engine [0x00, 0x00, 0x00, 0x00, 0x55, 0x66] buf_after_scratch)
      dev_crc_status unit_desc [0, 0, 0, 0, 0, 0]).adc_data =
        [0x55, 0x66, 0x00, 0x00, 0x55, 0x66] ∧
    (ad77681_spi_read_adc_data ad77681_regmap
      (layout_engine [0x00, 0x00, 0x00, 0x00, 0x55, 0x66] buf_after_scratch)
      dev_crc_status unit_desc [0, 0, 0, 0, 0, 0]).ret = 0 ∧
    (ad77681_spi_read_adc_data ad77681_regmap
      (layout_engine [0x00, 0x00, 0x00, 0x00, 0x55, 0x66] ret_after_scratch)
      dev_crc_status unit_desc [0, 0, 0, 0, 0, 0]).adc_data =
        [0x00, 0x00, 0x00, 0x00, 0x55, 0x66] ∧
    (ad77681_spi_read_adc_data ad77681_regmap
      (layout_engine [0x00, 0x00, 0x00, 0x00, 0x55, 0x66] ret_after_scratch)
      dev_crc_status unit_desc [0, 0, 0, 0, 0, 0]).ret = 102 := by
  refine ⟨fun σ H E dev desc adc_data hok => ?_, by decide, by decide, by decide, by decide,
    by decide, by decide⟩
  have hnf : ¬ (E.write_and_read desc.st (adc_read_frame H dev)).ret < 0 := not_lt.mpr hok
  rw [ad77681_spi_read_adc_data_eq, if_neg hnf]
  refine ⟨?_, ?_, fun hm => ?_, fun hm => ?_⟩
  · split <;> rfl
  · simp [adc_read_frame]
  · rw [if_neg hm]
    refine ⟨rfl, ?_, rfl⟩
    intro h
    have h2 : (E.write_and_read desc.st (adc_read_frame H dev)).ret = FAILURE := h
    rw [h2] at hnf
    exact hnf (by decide)
  · rw [if_pos hm]
    exact ⟨rfl, rfl, rfl⟩

/-- C7, at the failing input: with 16-bit samples, no checksum and no status
byte, `ad77681_get_rx_buf_len` returns 3, while the additive rule gives 2,
`ad77681_spi_read_adc_data` clocks 2 bytes after the command byte (3 in all)
and `ad77681_get_frame_16bit` rounds 2 bytes up to one 16-bit unit. -/
theorem ad77681_get_rx_buf_len_16bit :
    ad77681_get_rx_buf_len (dev_with AD77681_CONV_16BIT AD77681_NO_CRC false 1) = 3 ∧
    conversion_frame_length_bytes (dev_with AD77681_CONV_16BIT AD77681_NO_CRC false 1) = 2 ∧
    (ad77681_spi_read_adc_data ad77681_regmap
      (regfile_engine ad77681_regmap AD77681_NO_CRC (fun _ => 0))
      (dev_with AD77681_CONV_16BIT AD77681_NO_CRC false 1) (regfile_desc regs_0x14)
      [0, 0, 0, 0, 0, 0]).desc.calls = [⟨6, 3, [0x6C, 0, 0]⟩] ∧
    (ad77681_get_frame_16bit (dev_with AD77681_CONV_16BIT AD77681_NO_CRC false 1)).1 = 1 := by
  decide

/-! ### Configuration -/

theorem int_lor_eq_zero (a b : Int) : Int.lor a b = 0 ↔ a = 0 ∧ b = 0 := by
  cases a with
  | ofNat m =>
    cases b with
    | ofNat n =>
      simp only [Int.lor, Int.ofNat_eq_coe]
      constructor
      · intro h
        have h2 : m ||| n = 0 := by exact_mod_cast h
        have hm : m = 0 := by
          apply Nat.eq_of_testBit_eq
          intro i
          have := congrArg (fun x => x.testBit i) h2
          simp [Nat.testBit_or] at this
          simp [this.1]
        have hn : n = 0 := by
          apply Nat.eq_of_testBit_eq
          intro i
          have := congrArg (fun x => x.testBit i) h2
          simp [Nat.testBit_or] at this
          simp [this.2]
        subst hm; subst hn
        exact ⟨rfl, rfl⟩
      · rintro ⟨h1, h2⟩
        have hm : m = 0 := by exact_mod_cast h1
        have hn : n = 0 := by exact_mod_cast h2
        subst hm; subst hn
        rfl
    | negSucc n =>
      simp only [Int.lor]
      constructor
      · intro h; exact absurd h (by simp)
      · rintro ⟨_, h2⟩; exact absurd h2 (by simp)
  | negSucc m =>
    cases b with
    | ofNat n =>
      simp only [Int.lor]
      constructor
      · intro h; exact absurd h (by simp)
      · rintro ⟨h1, _⟩; exact absurd h1 (by simp)
    | negSucc n =>
      simp only [Int.lor]
      constructor
      · intro h; exact absurd h (by simp)
      · rintro ⟨h1, _⟩; exact absurd h1 (by simp)

/-- Every masked write fails over the dead transport. -/
theorem dead_write_mask (H : ad77681_h) (dev : ad77681_dev) (desc : spi_desc Unit)
    (reg_addr mask data : Nat) :
    (ad77681_spi_write_mask H dead_engine dev desc reg_addr mask data).ret = -1 := by
  by_cases hm : dev.crc_sel = AD77681_NO_CRC <;>
    simp [ad77681_spi_write_mask, ad77681_spi_reg_read, ad77681_spi_reg_write,
      spi_write_and_read, dead_engine, hm] <;> rfl

/-- Over the dead transport `ad77681_setup` produces a device with the geometry
of the parameters and with the `data_frame_16bit` of the allocated block. -/
theorem ad77681_setup_dead (H : ad77681_h) (block : ad77681_dev) (init : ad77681_init_param) :
    (ad77681_setup H dead_engine (some block) init (0, ())).device.map
        (fun p => (p.1.conv_len, p.1.crc_sel, p.1.status_bit, p.1.data_frame_16bit))
      = some (init.conv_len, init.crc_sel, init.status_bit, block.data_frame_16bit) := by
  have hne : ((-1 : Int) = SUCCESS) = False := by simp [SUCCESS]
  have hl : Int.lor (-1) (-1) = -1 := rfl
  simp [ad77681_setup, ad77681_soft_reset, ad77681_set_power_mode, ad77681_set_mclk_div,
    ad77681_set_conv_mode, ad77681_set_convlen, ad77681_set_status_bit, ad77681_set_crc_sel,
    dead_write_mask, hne, hl]
  split <;> simp [dead_write_mask, hne, hl]

/-- What `ad77681_get_frame_16bit` stores is valid for the device it returns. -/
theorem ad77681_get_frame_16bit_valid (dev : ad77681_dev) :
    frame_16bit_valid (ad77681_get_frame_16bit dev).2 := by
  obtain ⟨pm, md, cm, dm, ds, cl, cs, sb, f16⟩ := dev
  cases cl <;> cases cs <;> cases sb <;>
    simp [frame_16bit_valid, ad77681_get_frame_16bit, conversion_frame_length_bytes, u8]

/-- Each configuration function keeps the cached frame count valid: the fields
of the geometry change only together with the cache. -/
theorem run_setter_valid {σ : Type} (H : ad77681_h) (E : spi_engine σ) (dev : ad77681_dev)
    (desc : spi_desc σ) (c : setter_call) (hv : frame_16bit_valid dev) :
    frame_16bit_valid (run_setter H E dev desc c).dev := by
  cases c with
  | set_power_mode mode => exact hv
  | set_mclk_div clk_div => exact hv
  | set_conv_mode conv_mode diag_mux_sel conv_diag_sel => exact hv
  | set_convlen conv_len =>
    simp only [run_setter, ad77681_set_convlen]
    split
    · exact ad77681_get_frame_16bit_valid _
    · exact hv
  | set_crc_sel crc_sel =>
    by_cases hc : crc_sel = AD77681_NO_CRC
    · simp only [run_setter, ad77681_set_crc_sel, hc, if_true]
      split
      · exact ad77681_get_frame_16bit_valid _
      · exact hv
    · simp only [run_setter, ad77681_set_crc_sel, hc, if_false]
      split
      · exact ad77681_get_frame_16bit_valid _
      · exact hv
  | set_status_bit status_bit =>
    simp only [run_setter, ad77681_set_status_bit]
    split
    · exact ad77681_get_frame_16bit_valid _
    · exact hv
  | soft_reset => exact hv

theorem run_setters_valid {σ : Type} (H : ad77681_h) (E : spi_engine σ)
    (s : ad77681_dev × spi_desc σ) (cs : List setter_call) (hv : frame_16bit_valid s.1) :
    frame_16bit_valid (run_setters H E s cs).1 := by
  induction cs generalizing s with
  | nil => exact hv
  | cons c cs ih => exact ih _ (run_setter_valid H E s.1 s.2 c hv)

/-- A successful `ad77681_set_crc_sel` leaves a valid cached frame count. -/
theorem ad77681_set_crc_sel_valid {σ : Type} (H : ad77681_h) (E : spi_engine σ)
    (dev : ad77681_dev) (desc : spi_desc σ) (crc_sel : ad77681_crc_sel)
    (hret : (ad77681_set_crc_sel H E dev desc crc_sel).ret = 0) :
    frame_16bit_valid (ad77681_set_crc_sel H E dev desc crc_sel).dev := by
  revert hret
  by_cases hc : crc_sel = AD77681_NO_CRC
  · simp only [ad77681_set_crc_sel, hc, if_true]
    split
    · intro _
      exact ad77681_get_frame_16bit_valid _
    · rename_i hne
      intro h
      exact absurd h hne
  · simp only [ad77681_set_crc_sel, hc, if_false]
    split
    · intro _
      exact ad77681_get_frame_16bit_valid _
    · rename_i hne
      intro h
      exact absurd h hne

/-- After a successful `ad77681_setup` (status 0) and any sequence of calls of
configuration functions, the cached frame count is valid. -/
theorem ad77681_setup_success_valid {σ : Type} (H : ad77681_h) (E : spi_engine σ)
    (malloc : Option ad77681_dev) (init : ad77681_init_param) (spi_init : Int × σ)
    (cs : List setter_call) (s : ad77681_dev × spi_desc σ)
    (hret : (ad77681_setup H E malloc init spi_init).ret = 0)
    (hdev : (ad77681_setup H E malloc init spi_init).device = some s) :
    frame_16bit_valid (run_setters H E s cs).1 := by
  apply run_setters_valid
  cases malloc with
  | none => simp [ad77681_setup] at hdev
  | some block =>
    simp only [ad77681_setup] at hret hdev
    split at hdev
    · simp at hdev
    · rename_i hnf
      rw [if_neg hnf] at hret
      simp only [int_lor_eq_zero] at hret
      simp only [Option.some.injEq] at hdev
      rw [← hdev]
      exact ad77681_set_crc_sel_valid H E _ _ _ hret.2

/-- C8, at the failing input: over a transport on which every exchange fails,
none of the three geometry setters of `ad77681_setup` reaches
`ad77681_get_frame_16bit`, so the device is produced with the geometry of the
parameters and with the `data_frame_16bit` that the allocated block happened to
hold. With 24-bit samples, CRC8 and the status byte (5 bytes, 3 units of 16
bits) and a block that holds 0, the cached count is 0 and is not valid. -/
theorem ad77681_setup_frame_16bit_unset :
    (∀ (H : ad77681_h) (block : ad77681_dev) (init : ad77681_init_param),
      (ad77681_setup H dead_engine (some block) init (0, ())).device.map
          (fun p => (p.1.conv_len, p.1.crc_sel, p.1.status_bit, p.1.data_frame_16bit))
        = some (init.conv_len, init.crc_sel, init.status_bit, block.data_frame_16bit)) ∧
    (ad77681_setup ad77681_regmap dead_engine
      (some (dev_with AD77681_CONV_16BIT AD77681_NO_CRC false 0))
      (init_with AD77681_CONV_24BIT AD77681_CRC true) (0, ())).device.map
        (fun p => (p.1.conv_len, p.1.crc_sel, p.1.status_bit, p.1.data_frame_16bit))
      = some (AD77681_CONV_24BIT, AD77681_CRC, true, 0) ∧
    (conversion_frame_length_bytes
      (dev_with AD77681_CONV_24BIT AD77681_CRC true 0) + 1) / 2 = 3 ∧
    ¬ frame_16bit_valid (dev_with AD77681_CONV_24BIT AD77681_CRC true 0) :=
  ⟨ad77681_setup_dead, by decide, by decide, by decide⟩

/-- C10, at failing inputs. `ad77681_set_power_mode` returns the device as it
got it, whatever the transport does: over the register file its masked write
succeeds (status 0) and `power_mode` stays `AD77681_ECO` when `AD77681_FAST` is
requested. `ad77681_set_mclk_div` and `ad77681_set_conv_mode`
store the requested values and return 0 whatever the transport does: also over
the transport on which every exchange fails, where each masked write returns
-1. -/
theorem ad77681_setters_cache_divergence :
    (∀ (σ : Type) (H : ad77681_h) (E : spi_engine σ) (dev : ad77681_dev) (desc : spi_desc σ)
        (mode : ad77681_power_mode),
      (ad77681_set_power_mode H E dev desc mode).dev = dev) ∧
    (ad77681_set_power_mode ad77681_regmap
      (regfile_engine ad77681_regmap AD77681_NO_CRC (fun _ => 0))
      (dev_with AD77681_CONV_24BIT AD77681_NO_CRC false 2) (regfile_desc regs_0x14)
      AD77681_FAST).ret = 0 ∧
    (ad77681_set_power_mode ad77681_regmap
      (regfile_engine ad77681_regmap AD77681_NO_CRC (fun _ => 0))
      (dev_with AD77681_CONV_24BIT AD77681_NO_CRC false 2) (regfile_desc regs_0x14)
      AD77681_FAST).dev.power_mode = AD77681_ECO ∧
    (∀ (σ : Type) (H : ad77681_h) (E : spi_engine σ) (dev : ad77681_dev) (desc : spi_desc σ)
        (clk_div : ad77681_mclk_div),
      (ad77681_set_mclk_div H E dev desc clk_div).dev.mclk_div = clk_div ∧
      (ad77681_set_mclk_div H E dev desc clk_div).ret = 0) ∧
    (∀ (σ : Type) (H : ad77681_h) (E : spi_engine σ) (dev : ad77681_dev) (desc : spi_desc σ)
        (conv_mode : ad77681_conv_mode) (diag_mux_sel : ad77681_conv_diag_mux)
        (conv_diag_sel : Bool),
      (ad77681_set_conv_mode H E dev desc conv_mode diag_mux_sel conv_diag_sel).dev.conv_mode
        = conv_mode ∧
      (ad77681_set_conv_mode H E dev desc conv_mode diag_mux_sel conv_diag_sel).dev.diag_mux_sel
        = diag_mux_sel ∧
      (ad77681_set_conv_mode H E dev desc conv_mode diag_mux_sel conv_diag_sel).dev.conv_diag_sel
        = conv_diag_sel ∧
      (ad77681_set_conv_mode H E dev desc conv_mode diag_mux_sel conv_diag_sel).ret = 0) ∧
    (∀ (H : ad77681_h) (dev : ad77681_dev) (desc : spi_desc Unit) (reg_addr mask data : Nat),
      (ad77681_spi_write_mask H dead_engine dev desc reg_addr mask data).ret = -1) ∧
    (ad77681_set_mclk_div ad77681_regmap dead_engine
      (dev_with AD77681_CONV_24BIT AD77681_NO_CRC false 2) dead_desc
      AD77681_MCLK_DIV_2).dev.mclk_div = AD77681_MCLK_DIV_2 ∧
    (ad77681_set_conv_mode ad77681_regmap dead_engine
      (dev_with AD77681_CONV_24BIT AD77681_NO_CRC false 2) dead_desc
      AD77681_CONV_SINGLE AD77681_AIN_SHORT true).dev.conv_mode = AD77681_CONV_SINGLE :=
  ⟨fun _ _ _ _ _ _ => rfl, by decide, by decide, fun _ _ _ _ _ _ => ⟨rfl, rfl⟩,
    fun _ _ _ _ _ _ _ _ => ⟨rfl, rfl, rfl, rfl⟩, dead_write_mask, by decide, by decide⟩

/-! ### Checksum engine: chaining and the byte-wise form -/

/-- The CRC over a concatenation is the CRC over the second part seeded with
the CRC over the first. -/
theorem crc8_append (H : ad77681_h) (a b : List Nat) (n seed : Nat) :
    ad77681_compute_crc8 H (a ++ b) (a.length + n) seed =
      ad77681_compute_crc8 H b n (ad77681_compute_crc8 H a a.length seed) := by
  induction a generalizing seed with
  | nil => simp [ad77681_compute_crc8]
  | cons x a ih =>
    have e : (x :: a).length + n = (a.length + n) + 1 := by simp; omega
    rw [e, List.cons_append, ad77681_compute_crc8, List.length_cons, ad77681_compute_crc8]
    simp only [List.headD_cons, List.tail_cons]
    exact ih _

/-- C16: for all byte sequences `a` and `b` and every seed, the CRC-8 of
`a ++ b` is the CRC-8 of `b` computed from the CRC-8 of `a` as its seed. -/
theorem ad77681_compute_crc8_chain (H : ad77681_h) (a b : List Nat) (seed : Nat) :
    ad77681_compute_crc8 H (a ++ b) (a.length + b.length) seed =
      ad77681_compute_crc8 H b b.length (ad77681_compute_crc8 H a a.length seed) :=
  crc8_append H a b b.length seed

theorem u8_testBit (x i : Nat) : (u8 x).testBit i = (decide (i < 8) && x.testBit i) := by
  have e : u8 x = x % 2 ^ 8 := rfl
  rw [e, Nat.testBit_mod_two_pow]

theorem and_0x80_ne_zero (x : Nat) : (x &&& 0x80 ≠ 0) ↔ x.testBit 7 = true := by
  constructor
  · intro h
    by_contra hc
    apply h
    apply Nat.eq_of_testBit_eq
    intro i
    have e : (0x80 : Nat) = 2 ^ 7 := rfl
    rw [Nat.testBit_and, e, Nat.testBit_two_pow]
    by_cases hi : 7 = i
    · subst hi
      simp [hc]
    · simp [hi]
  · intro h hz
    have := congrArg (fun y => y.testBit 7) hz
    have e : (0x80 : Nat) = 2 ^ 7 := rfl
    simp only [Nat.testBit_and, e, Nat.testBit_two_pow, h] at this
    simp at this

/-- One shift of the byte-wise form on `s XOR e` is one iteration of the bit
loop on `s` with the top bit of `e` as data bit, XORed with `e` shifted. -/
theorem crc8_shift_xor (H : ad77681_h) (s e : Nat) :
    crc8_shift H.AD77681_CRC8_POLY (s ^^^ e) =
      crc8_step H s (decide (e &&& 0x80 ≠ 0)) ^^^ u8 (e <<< 1) := by
  have hcond : ((s ^^^ e) &&& 0x80 ≠ 0) ↔
      ((decide (s &&& 0x80 ≠ 0)) != (decide (e &&& 0x80 ≠ 0))) = true := by
    rw [and_0x80_ne_zero]
    simp only [and_0x80_ne_zero, Nat.testBit_xor]
    cases s.testBit 7 <;> cases e.testBit 7 <;> simp
  unfold crc8_shift crc8_step
  by_cases hc : (s ^^^ e) &&& 0x80 ≠ 0
  · rw [if_pos hc, if_pos (hcond.mp hc)]
    apply Nat.eq_of_testBit_eq
    intro i
    simp only [u8_testBit, Nat.testBit_xor, Nat.testBit_shiftLeft]
    cases decide (i < 8) <;> cases decide (i ≥ 1) <;> cases s.testBit (i - 1) <;>
      cases e.testBit (i - 1) <;> cases H.AD77681_CRC8_POLY.testBit i <;> rfl
  · rw [if_neg hc, if_neg (fun h => hc (hcond.mpr h))]
    apply Nat.eq_of_testBit_eq
    intro i
    simp only [u8_testBit, Nat.testBit_xor, Nat.testBit_shiftLeft]
    cases decide (i < 8) <;> cases decide (i ≥ 1) <;> cases s.testBit (i - 1) <;>
      cases e.testBit (i - 1) <;> rfl

/-- The byte-wise form after `n` shifts against the bit loop after `n`
iterations: they differ by the data bits not yet consumed. -/
theorem crc8_shift_iterate (H : ad77681_h) (n s e : Nat) :
    Nat.iterate (crc8_shift H.AD77681_CRC8_POLY) n (s ^^^ e) =
      (msb_bits n e).foldl (crc8_step H) s ^^^ Nat.iterate (fun x => u8 (x <<< 1)) n e := by
  induction n generalizing s e with
  | zero => rfl
  | succ n ih =>
    rw [Function.iterate_succ_apply, Function.iterate_succ_apply, crc8_shift_xor H s e, ih]
    rfl

theorem data_bits_eq_msb_bits : ∀ d, d < 256 → data_bits d = msb_bits 8 d := by
  decide

theorem shift_out : ∀ d, d < 256 → Nat.iterate (fun x => u8 (x <<< 1)) 8 d = 0 := by
  decide

/-- The bit loop over one byte is the byte XORed in followed by eight shifts. -/
theorem crc8_bit_loop_bytewise (H : ad77681_h) (d c : Nat) (hd : d < 256) :
    crc8_bit_loop H d 8 0x80 c = Nat.iterate (crc8_shift H.AD77681_CRC8_POLY) 8 (c ^^^ d) := by
  rw [crc8_bit_loop_eq, crc8_shift_iterate H 8 c d, shift_out d hd,
    data_bits_eq_msb_bits d hd, Nat.xor_zero]

theorem crc8_shift_zero (poly : Nat) : crc8_shift poly 0 = 0 := by
  simp [crc8_shift, u8]

/-- The bit loop over the byte that equals the CRC gives 0. -/
theorem crc8_bit_loop_self (H : ad77681_h) (c : Nat) (hc : c < 256) :
    crc8_bit_loop H c 8 0x80 c = 0 := by
  rw [crc8_bit_loop_bytewise H c c hc, Nat.xor_self]
  simp [Function.iterate_succ_apply, crc8_shift_zero]

/-- C17: for every buffer of bytes, every length within it and every seed, the
bit-serial `ad77681_compute_crc8` equals the standard byte-wise MSB-first
CRC-8 with the same polynomial and no final XOR over the first `n` bytes. -/
theorem ad77681_compute_crc8_bytewise (H : ad77681_h) (data : List Nat) (n seed : Nat)
    (hlen : n ≤ data.length) (hbytes : ∀ b ∈ data, b < 256) :
    ad77681_compute_crc8 H data n seed =
      crc8_bytewise H.AD77681_CRC8_POLY (data.take n) seed := by
  induction n generalizing data seed with
  | zero => simp [ad77681_compute_crc8, crc8_bytewise]
  | succ n ih =>
    match data, hlen, hbytes with
    | d :: rest, hlen, hbytes =>
      have hd : d < 256 := hbytes d (by simp)
      have hrest : ∀ b ∈ rest, b < 256 := fun b hb => hbytes b (by simp [hb])
      rw [ad77681_compute_crc8]
      simp only [List.headD_cons, List.tail_cons, List.take_succ_cons, crc8_bytewise]
      rw [crc8_bit_loop_bytewise H d seed hd]
      exact ih rest _ (by simpa using hlen) hrest

/-- Appending its own CRC to a message brings the CRC to 0. -/
theorem crc8_residue (H : ad77681_h) (d : List Nat) (s : Nat) (hs : s < 256) :
    ad77681_compute_crc8 H (d ++ [ad77681_compute_crc8 H d d.length s]) (d.length + 1) s = 0 := by
  rw [crc8_append H d _ 1 s, ad77681_compute_crc8]
  simp only [List.headD_cons, List.tail_cons, ad77681_compute_crc8]
  exact crc8_bit_loop_self H _ (ad77681_compute_crc8_lt H d d.length s hs)

/-- The first four bytes of the array of a conversion read. -/
theorem adc_exchanged_take_four (dev : ad77681_dev) (rx : Nat → Nat) :
    (adc_exchanged dev rx).take 4 =
      [(adc_exchanged dev rx).getD 0 0, (adc_exchanged dev rx).getD 1 0,
        (adc_exchanged dev rx).getD 2 0] ++ [(adc_exchanged dev rx).getD 3 0] := by
  obtain ⟨pm, md, cm, dm, ds, cl, cs, sb, f16⟩ := dev
  cases cl <;> cases cs <;> cases sb <;>
    simp [adc_exchanged, conversion_frame_length_bytes, List.range_succ, List.replicate]

/-- C18, at the failing input. For every byte sequence `d` and seed byte `s`,
the CRC-8 of `d` followed by its own CRC-8 is 0. So in mode CRC8, for a response
of an exchange that does not fail whose byte at offset 3 is the CRC-8 (seed 0)
of its bytes 0..2, the CRC-8 that `ad77681_spi_read_adc_data` computes is 0, and
the status is `FAILURE` when the byte of `buf` at offset 3 is not 0 and the
content of `ret` when it is 0, both as the six-byte copy into `crc_calc_buf`
leaves them. With 24-bit samples, the status byte and the response
00 00 00 00 55 66, on a frame where `ret` follows `crc_calc_buf`: the byte at
offset 3 is 0, the CRC-8 of the bytes 0..2, the transport returned 0, and the
status returned is 102; with the response 00 12 34 F1 00 00, where 0xF1 is the
CRC-8 of 00 12 34, the status is `FAILURE`. -/
theorem ad77681_compute_crc8_residue_overrun :
    (∀ (H : ad77681_h) (d : List Nat) (s : Nat), s < 256 →
      ad77681_compute_crc8 H (d ++ [ad77681_compute_crc8 H d d.length s]) (d.length + 1) s
        = 0) ∧
    (∀ (σ : Type) (H : ad77681_h) (E : spi_engine σ) (dev : ad77681_dev) (desc : spi_desc σ)
        (adc_data : List Nat),
      dev.crc_sel = AD77681_CRC →
      0 ≤ (E.write_and_read desc.st (adc_read_frame H dev)).ret →
      (adc_exchanged dev (E.write_and_read desc.st (adc_read_frame H dev)).rx).getD 3 0 =
        ad77681_compute_crc8 H
          [(adc_exchanged dev (E.write_and_read desc.st (adc_read_frame H dev)).rx).getD 0 0,
            (adc_exchanged dev (E.write_and_read desc.st (adc_read_frame H dev)).rx).getD 1 0,
            (adc_exchanged dev (E.write_and_read desc.st (adc_read_frame H dev)).rx).getD 2 0]
          3 0 →
      ad77681_compute_crc8 H
        ((adc_exchanged dev (E.write_and_read desc.st (adc_read_frame H dev)).rx).take 4) 4 0
        = 0 ∧
      ((adc_clobbered E dev (E.write_and_read desc.st (adc_read_frame H dev))).buf.getD 3 0 ≠ 0 →
        (ad77681_spi_read_adc_data H E dev desc adc_data).ret = FAILURE) ∧
      ((adc_clobbered E dev (E.write_and_read desc.st (adc_read_frame H dev))).buf.getD 3 0 = 0 →
        (ad77681_spi_read_adc_data H E dev desc adc_data).ret =
          (adc_clobbered E dev (E.write_and_read desc.st (adc_read_frame H dev))).ret)) ∧
    (adc_exchanged dev_crc_status
      (fun k => [0x00, 0x00, 0x00, 0x00, 0x55, 0x66].getD k 0)).getD 3 0 = 0x00 ∧
    ad77681_compute_crc8 ad77681_regmap [0x00, 0x00, 0x00] 3 0 = 0x00 ∧
    ((layout_engine [0x00, 0x00, 0x00, 0x00, 0x55, 0x66] ret_after_scratch).write_and_read ()
      (adc_read_frame ad77681_regmap dev_crc_status)).ret = SUCCESS ∧
    (ad77681_spi_read_adc_data ad77681_regmap
      (layout_engine [0x00, 0x00, 0x00, 0x00, 0x55, 0x66] ret_after_scratch)
      dev_crc_status unit_desc [0, 0, 0, 0, 0, 0]).ret = 102 ∧
    ad77681_compute_crc8 ad77681_regmap [0x00, 0x12, 0x34] 3 0 = 0xF1 ∧
    (ad77681_spi_read_adc_data ad77681_regmap
      (layout_engine [0x00, 0x12, 0x34, 0xF1, 0x00, 0x00] ret_after_scratch)
      dev_crc_status unit_desc [0, 0, 0, 0, 0, 0]).ret = FAILURE := by
  refine ⟨fun H d s hs => crc8_residue H d s hs,
    fun σ H E dev desc adc_data hm hok hcrc => ?_,
    by decide, by decide, by decide, by decide, by decide, by decide⟩
  have hnf : ¬ (E.write_and_read desc.st (adc_read_frame H dev)).ret < 0 := not_lt.mpr hok
  have hz : ad77681_compute_crc8 H
      ((adc_exchanged dev (E.write_and_read desc.st (adc_read_frame H dev)).rx).take 4) 4 0
      = 0 := by
    rw [adc_exchanged_take_four]
    generalize (adc_exchanged dev (E.write_and_read desc.st (adc_read_frame H dev)).rx).getD 3 0
      = b3 at hcrc ⊢
    rw [hcrc]
    exact crc8_residue H _ 0 (by decide)
  refine ⟨hz, fun hb => ?_, fun hb => ?_⟩
  · rw [ad77681_spi_read_adc_data_eq, if_neg hnf, if_pos hm]
    show (if _ ≠ _ then FAILURE else _) = FAILURE
    rw [hz, if_pos (Ne.symm hb)]
  · rw [ad77681_spi_read_adc_data_eq, if_neg hnf, if_pos hm]
    show (if _ ≠ _ then FAILURE else _) = _
    rw [hz, hb, if_neg (fun h => h rfl)]

/-- C17, evaluated: the two-byte frame of a read of register 0x14 that returned
0x48. -/
theorem ad77681_compute_crc8_bytewise_witness :
    2 ≤ [0x54, 0x48].length ∧ (∀ b ∈ [0x54, 0x48], b < 256) ∧
      ad77681_compute_crc8 ad77681_regmap [0x54, 0x48] 2 0 =
        crc8_bytewise ad77681_regmap.AD77681_CRC8_POLY ([0x54, 0x48].take 2) 0 :=
  ⟨by decide, by decide,
    ad77681_compute_crc8_bytewise ad77681_regmap [0x54, 0x48] 2 0 (by decide) (by decide)⟩

/-! ### Transactions of the driver -/

/-- The descriptor after a register read is the descriptor after its exchange
with the calls of `ad77681_compute_xor` recorded, whatever the outcome. -/
theorem ad77681_spi_reg_read_desc {σ : Type} (H : ad77681_h) (E : spi_engine σ)
    (dev : ad77681_dev) (desc : spi_desc σ) (reg_addr : Nat) (reg_data : List Nat) :
    (ad77681_spi_reg_read H E dev desc reg_addr reg_data).desc =
      { (spi_write_and_read E desc
          (((auto_array E desc 3).set 0 (u8 (H.AD77681_REG_READ reg_addr))).set 1 0)
          (if dev.crc_sel = AD77681_NO_CRC then 2 else 3)).desc with
        xors := (ad77681_spi_reg_read H E dev desc reg_addr reg_data).desc.xors } := by
  unfold ad77681_spi_reg_read
  simp only []
  split_ifs <;> rfl

theorem ad77681_spi_reg_read_writes {σ : Type} (H : ad77681_h) (E : spi_engine σ)
    (dev : ad77681_dev) (desc : spi_desc σ) (reg_addr : Nat) (reg_data : List Nat) :
    (ad77681_spi_reg_read H E dev desc reg_addr reg_data).desc.writes = desc.writes := by
  rw [ad77681_spi_reg_read_desc]
  rfl

theorem ad77681_spi_reg_write_writes {σ : Type} (H : ad77681_h) (E : spi_engine σ)
    (dev : ad77681_dev) (desc : spi_desc σ) (reg_addr reg_data : Nat) :
    (ad77681_spi_reg_write H E dev desc reg_addr reg_data).desc.writes = desc.writes := rfl

/-- A register read makes one call of the transport, on the frame of a register
read, whatever the outcome. -/
theorem ad77681_spi_reg_read_calls {σ : Type} (H : ad77681_h) (E : spi_engine σ)
    (dev : ad77681_dev) (desc : spi_desc σ) (reg_addr : Nat) (reg_data : List Nat) :
    (ad77681_spi_reg_read H E dev desc reg_addr reg_data).desc.calls =
      desc.calls ++ [⟨3, if dev.crc_sel = AD77681_NO_CRC then 2 else 3,
        reg_read_frame H E dev desc reg_addr⟩] := by
  rw [ad77681_spi_reg_read_desc]
  by_cases hm : dev.crc_sel = AD77681_NO_CRC <;>
    simp [spi_write_and_read, auto_array, List.range_succ, reg_read_frame, hm]

/-- A register write makes one call of the transport, on the frame of a
register write. -/
theorem ad77681_spi_reg_write_calls {σ : Type} (H : ad77681_h) (E : spi_engine σ)
    (dev : ad77681_dev) (desc : spi_desc σ) (reg_addr reg_data : Nat) :
    (ad77681_spi_reg_write H E dev desc reg_addr reg_data).desc.calls =
      desc.calls ++ [⟨3, if dev.crc_sel = AD77681_NO_CRC then 2 else 3,
        reg_write_frame H dev reg_addr reg_data⟩] := by
  by_cases hm : dev.crc_sel = AD77681_NO_CRC
  · simp [reg_write_frame, ad77681_spi_reg_write, spi_write_and_read, auto_array, hm,
      List.range_succ]
  · simp [reg_write_frame, ad77681_spi_reg_write, spi_write_and_read, auto_array, hm,
      List.range_succ, ad77681_compute_crc8, INITIAL_CRC]

/-- A conversion read makes one call of the transport, whatever the outcome. -/
theorem ad77681_spi_read_adc_data_calls {σ : Type} (H : ad77681_h) (E : spi_engine σ)
    (dev : ad77681_dev) (desc : spi_desc σ) (adc_data : List Nat) :
    (ad77681_spi_read_adc_data H E dev desc adc_data).desc.calls =
      desc.calls ++ [⟨6, conversion_frame_length_bytes dev + 1, adc_read_frame H dev⟩] := by
  rw [ad77681_spi_read_adc_data_eq]
  split
  · rfl
  · split <;> rfl

theorem conversion_frame_length_bytes_bounds (dev : ad77681_dev) :
    2 ≤ conversion_frame_length_bytes dev ∧ conversion_frame_length_bytes dev ≤ 5 := by
  obtain ⟨pm, md, cm, dm, ds, cl, cs, sb, f16⟩ := dev
  cases cl <;> cases cs <;> cases sb <;> simp [conversion_frame_length_bytes]

theorem adc_exchanged_length (dev : ad77681_dev) (rx : Nat → Nat) :
    (adc_exchanged dev rx).length = 6 := by
  obtain ⟨pm, md, cm, dm, ds, cl, cs, sb, f16⟩ := dev
  cases cl <;> cases cs <;> cases sb <;>
    simp [adc_exchanged, conversion_frame_length_bytes]

/-- C20, at the failing input: in mode CRC8, after an exchange that does not
fail, the copy into the scratch array `crc_calc_buf` (4 bytes) writes the 6
bytes of the exchange array; with 24-bit samples and the response 00 12 34 F1
the bytes written are 00 12 34 F1 00 00. -/
theorem ad77681_spi_read_adc_data_crc_copy :
    (∀ (σ : Type) (H : ad77681_h) (E : spi_engine σ) (dev : ad77681_dev) (desc : spi_desc σ)
        (adc_data : List Nat),
      dev.crc_sel = AD77681_CRC →
      0 ≤ (E.write_and_read desc.st (adc_read_frame H dev)).ret →
      (ad77681_spi_read_adc_data H E dev desc adc_data).crc_calc_buf.length = 6 ∧
      (auto_array E desc 4).length = 4) ∧
    (ad77681_spi_read_adc_data ad77681_regmap (fixed_engine [0x00, 0x12, 0x34, 0xF1])
      (dev_with AD77681_CONV_24BIT AD77681_CRC false 2) unit_desc
      [0, 0, 0, 0, 0, 0]).crc_calc_buf = [0x00, 0x12, 0x34, 0xF1, 0x00, 0x00] := by
  refine ⟨fun σ H E dev desc adc_data hm hok => ⟨?_, by simp [auto_array]⟩, by decide⟩
  have hnf : ¬ (E.write_and_read desc.st (adc_read_frame H dev)).ret < 0 := not_lt.mpr hok
  rw [ad77681_spi_read_adc_data_eq, if_neg hnf, if_pos hm]
  exact adc_exchanged_length dev _

/-! ### Masked writes -/

theorem ad77681_spi_write_mask_ret {σ : Type} (H : ad77681_h) (E : spi_engine σ)
    (dev : ad77681_dev) (desc : spi_desc σ) (reg_addr mask data : Nat) :
    (ad77681_spi_write_mask H E dev desc reg_addr mask data).ret =
      Int.lor (ad77681_spi_reg_read H E dev desc reg_addr (auto_array E desc 3)).ret
        (ad77681_spi_reg_write H E dev
          (ad77681_spi_reg_read H E dev desc reg_addr (auto_array E desc 3)).desc reg_addr
          ((((ad77681_spi_reg_read H E dev desc reg_addr (auto_array E desc 3)).buf.set 1
            ((ad77681_spi_reg_read H E dev desc reg_addr (auto_array E desc 3)).buf.getD 1 0
              &&& u8_not mask)).set 1
            ((((ad77681_spi_reg_read H E dev desc reg_addr (auto_array E desc 3)).buf.set 1
              ((ad77681_spi_reg_read H E dev desc reg_addr (auto_array E desc 3)).buf.getD 1 0
                &&& u8_not mask)).getD 1 0) ||| u8 data)).getD 1 0)).ret := rfl

/-- A masked write is recorded once, with its arguments and its status. -/
theorem ad77681_spi_write_mask_writes {σ : Type} (H : ad77681_h) (E : spi_engine σ)
    (dev : ad77681_dev) (desc : spi_desc σ) (reg_addr mask data : Nat) :
    (ad77681_spi_write_mask H E dev desc reg_addr mask data).desc.writes =
      desc.writes ++
        [⟨reg_addr, mask, data, (ad77681_spi_write_mask H E dev desc reg_addr mask data).ret⟩] := by
  simp only [ad77681_spi_write_mask, ad77681_spi_reg_write_writes, ad77681_spi_reg_read_writes]

/-- A masked write makes two calls of the transport: a register read, then a
register write of the same register. -/
theorem ad77681_spi_write_mask_cmds {σ : Type} (H : ad77681_h) (E : spi_engine σ)
    (dev : ad77681_dev) (desc : spi_desc σ) (reg_addr mask data : Nat) :
    (ad77681_spi_write_mask H E dev desc reg_addr mask data).desc.calls.map
        (fun c => c.frame.headD 0) =
      desc.calls.map (fun c => c.frame.headD 0) ++
        [u8 (H.AD77681_REG_READ reg_addr), u8 (H.AD77681_REG_WRITE reg_addr)] := by
  simp only [ad77681_spi_write_mask, ad77681_spi_reg_write_calls, ad77681_spi_reg_read_calls]
  by_cases hm : dev.crc_sel = AD77681_NO_CRC <;>
    simp [reg_read_frame, reg_write_frame, hm]

/-- After an exchange that does not fail, the caller's array of a register read
starts with the bytes received at the positions 0 and 1. -/
theorem ad77681_spi_reg_read_buf {σ : Type} (H : ad77681_h) (E : spi_engine σ)
    (dev : ad77681_dev) (desc : spi_desc σ) (reg_addr : Nat) (reg_data : List Nat)
    (hok : 0 ≤ (E.write_and_read desc.st (reg_read_frame H E dev desc reg_addr)).ret) :
    ∃ tail, (ad77681_spi_reg_read H E dev desc reg_addr reg_data).buf =
      u8 ((E.write_and_read desc.st (reg_read_frame H E dev desc reg_addr)).rx 0) ::
        u8 ((E.write_and_read desc.st (reg_read_frame H E dev desc reg_addr)).rx 1) :: tail := by
  have hnf : ¬ (E.write_and_read desc.st (reg_read_frame H E dev desc reg_addr)).ret < 0 :=
    not_lt.mpr hok
  by_cases hm : dev.crc_sel = AD77681_NO_CRC
  · have hr : reg_read_frame H E dev desc reg_addr = [u8 (H.AD77681_REG_READ reg_addr), 0] := by
      simp [reg_read_frame, hm]
    rw [hr] at hnf ⊢
    simp [ad77681_spi_reg_read, compute_xor_call, spi_write_and_read, auto_array, hm,
      List.range_succ, memcpy, hnf]
  · have hr : reg_read_frame H E dev desc reg_addr =
        [u8 (H.AD77681_REG_READ reg_addr), 0, u8 (E.indeterminate desc.st 2)] := by
      simp [reg_read_frame, hm]
    rw [hr] at hnf ⊢
    simp [ad77681_spi_reg_read, compute_xor_call, spi_write_and_read, auto_array, hm,
      List.range_succ, memcpy, hnf]

/-- C13: when the read exchange does not fail and returns the data byte `R`,
`ad77681_spi_write_mask` makes exactly two calls of the transport, a register
read and then a register write of the same register; the payload of the write
is `(R & ~mask) | field`; the status returned is the bitwise OR of the status of
the read (a checksum failure included) and the status of the write. -/
theorem ad77681_spi_write_mask_spec {σ : Type} (H : ad77681_h) (E : spi_engine σ)
    (dev : ad77681_dev) (desc : spi_desc σ) (reg_addr mask field : Nat)
    (hok : 0 ≤ (E.write_and_read desc.st (reg_read_frame H E dev desc reg_addr)).ret) :
    let R := u8 ((E.write_and_read desc.st (reg_read_frame H E dev desc reg_addr)).rx 1)
    let payload := (R &&& u8_not mask) ||| u8 field
    let x := ad77681_spi_reg_read H E dev desc reg_addr (auto_array E desc 3)
    let w := ad77681_spi_reg_write H E dev x.desc reg_addr payload
    let out := ad77681_spi_write_mask H E dev desc reg_addr mask field
    out.desc.calls = desc.calls ++
      [⟨3, if dev.crc_sel = AD77681_NO_CRC then 2 else 3, reg_read_frame H E dev desc reg_addr⟩,
        ⟨3, if dev.crc_sel = AD77681_NO_CRC then 2 else 3,
          reg_write_frame H dev reg_addr payload⟩] ∧
    (reg_read_frame H E dev desc reg_addr).take 2 = [u8 (H.AD77681_REG_READ reg_addr), 0] ∧
    (reg_write_frame H dev reg_addr payload).take 2 =
      [u8 (H.AD77681_REG_WRITE reg_addr), payload] ∧
    out.ret = Int.lor x.ret w.ret ∧
    w.ret = (E.write_and_read x.desc.st (reg_write_frame H dev reg_addr payload)).ret := by
  intro R payload x w out
  obtain ⟨tail, hbuf⟩ := ad77681_spi_reg_read_buf H E dev desc reg_addr (auto_array E desc 3) hok
  have hpl : payload < 256 :=
    Nat.or_lt_two_pow (n := 8) (Nat.and_lt_two_pow _ (n := 8) (u8_not_lt mask)) (u8_lt _)
  have hout : out = { ret := Int.lor x.ret w.ret
                      desc := { w.desc with
                        writes := w.desc.writes ++ [⟨reg_addr, mask, field, Int.lor x.ret w.ret⟩] } } := by
    simp only [out, ad77681_spi_write_mask, w, x, hbuf, List.set_cons_succ, List.set_cons_zero,
      List.getD_cons_succ, List.getD_cons_zero, payload, R]
  refine ⟨?_, ?_, ?_, ?_, ?_⟩
  · rw [hout]
    simp only [w, x, ad77681_spi_reg_write_calls, ad77681_spi_reg_read_calls, List.append_assoc,
      List.singleton_append]
  · by_cases hm : dev.crc_sel = AD77681_NO_CRC <;> simp [reg_read_frame, hm]
  · by_cases hm : dev.crc_sel = AD77681_NO_CRC <;>
      simp [reg_write_frame, hm, u8_of_lt _ hpl]
  · rw [hout]
  · by_cases hm : dev.crc_sel = AD77681_NO_CRC
    · simp [w, reg_write_frame, ad77681_spi_reg_write, spi_write_and_read, auto_array, hm,
        List.range_succ]
    · simp [w, reg_write_frame, ad77681_spi_reg_write, spi_write_and_read, auto_array, hm,
        List.range_succ, ad77681_compute_crc8, INITIAL_CRC]

/-- C13, evaluated: register 0x14 of the register file in mode CRC8, mask 0x0F,
field 0x05. -/
theorem ad77681_spi_write_mask_spec_witness :
    0 ≤ ((regfile_engine ad77681_regmap AD77681_CRC (fun _ => 0)).write_and_read regs_0x14
        (reg_read_frame ad77681_regmap (regfile_engine ad77681_regmap AD77681_CRC (fun _ => 0))
          (dev_with AD77681_CONV_24BIT AD77681_CRC false 2) (regfile_desc regs_0x14) 0x14)).ret ∧
      (reg_write_frame ad77681_regmap (dev_with AD77681_CONV_24BIT AD77681_CRC false 2) 0x14
        ((u8 (((regfile_engine ad77681_regmap AD77681_CRC (fun _ => 0)).write_and_read regs_0x14
          (reg_read_frame ad77681_regmap (regfile_engine ad77681_regmap AD77681_CRC (fun _ => 0))
            (dev_with AD77681_CONV_24BIT AD77681_CRC false 2) (regfile_desc regs_0x14)
            0x14)).rx 1) &&& u8_not 0x0F) ||| u8 0x05)).take 2 = [0x14, 0x45] :=
  ⟨by decide,
    (ad77681_spi_write_mask_spec ad77681_regmap
      (regfile_engine ad77681_regmap AD77681_CRC (fun _ => 0))
      (dev_with AD77681_CONV_24BIT AD77681_CRC false 2) (regfile_desc regs_0x14) 0x14 0x0F 0x05
      (by decide)).2.2.1.trans (by decide)⟩

/-! ### Configuration: the masked writes of the setters -/

theorem int_lor_zero_left (x : Int) : Int.lor 0 x = x := by
  cases x with
  | ofNat n =>
    show ((0 ||| n : Nat) : Int) = n
    simp
  | negSucc n =>
    show Int.negSucc (Nat.ldiff n 0) = Int.negSucc n
    congr 1
    apply Nat.eq_of_testBit_eq
    intro i
    simp [Nat.ldiff, Nat.testBit_bitwise]

/-- C15 (amended): `ad77681_soft_reset` always makes exactly two masked writes
to the sync/reset register, in order: the first with the field value
`AD77681_SYNC_RST_SPI_RESET(0x3)` and the second with
`AD77681_SYNC_RST_SPI_RESET(0x2)`, both with the one mask
`AD77681_SYNC_RST_SPI_RESET_MSK`; the second is made whatever the status of the
first, the result is the bitwise OR of the two statuses, and the device is
returned as it was. -/
theorem ad77681_soft_reset_spec {σ : Type} (H : ad77681_h) (E : spi_engine σ)
    (dev : ad77681_dev) (desc : spi_desc σ) :
    let w1 := ad77681_spi_write_mask H E dev desc H.AD77681_REG_SYNC_RESET
      H.AD77681_SYNC_RST_SPI_RESET_MSK (H.AD77681_SYNC_RST_SPI_RESET 0x3)
    let w2 := ad77681_spi_write_mask H E dev w1.desc H.AD77681_REG_SYNC_RESET
      H.AD77681_SYNC_RST_SPI_RESET_MSK (H.AD77681_SYNC_RST_SPI_RESET 0x2)
    let out := ad77681_soft_reset H E dev desc
    out.desc.writes = desc.writes ++
      [⟨H.AD77681_REG_SYNC_RESET, H.AD77681_SYNC_RST_SPI_RESET_MSK,
          H.AD77681_SYNC_RST_SPI_RESET 0x3, w1.ret⟩,
        ⟨H.AD77681_REG_SYNC_RESET, H.AD77681_SYNC_RST_SPI_RESET_MSK,
          H.AD77681_SYNC_RST_SPI_RESET 0x2, w2.ret⟩] ∧
    out.desc = w2.desc ∧
    out.ret = Int.lor w1.ret w2.ret ∧
    out.dev = dev := by
  intro w1 w2 out
  refine ⟨?_, rfl, ?_, rfl⟩
  · show w2.desc.writes = _
    simp only [w2, w1, ad77681_spi_write_mask_writes, List.append_assoc, List.singleton_append]
  · show Int.lor (Int.lor 0 w1.ret) w2.ret = _
    rw [int_lor_zero_left]

/-- C15 as stated fails: over the register file, the two masked writes of
`ad77681_soft_reset` do not use distinct mask values (both use 0x3). -/
theorem ad77681_soft_reset_spec_counterexample :
    ¬ ∃ w1 w2 : masked_write,
      (ad77681_soft_reset ad77681_regmap
        (regfile_engine ad77681_regmap AD77681_NO_CRC (fun _ => 0))
        (dev_with AD77681_CONV_24BIT AD77681_NO_CRC false 2)
        (regfile_desc regs_0x14)).desc.writes = [w1, w2] ∧ w1.mask ≠ w2.mask := by
  rintro ⟨w1, w2, h, hne⟩
  have e : (ad77681_soft_reset ad77681_regmap
      (regfile_engine ad77681_regmap AD77681_NO_CRC (fun _ => 0))
      (dev_with AD77681_CONV_24BIT AD77681_NO_CRC false 2)
      (regfile_desc regs_0x14)).desc.writes = [⟨0x1D, 0x3, 0x3, 0⟩, ⟨0x1D, 0x3, 0x2, 0⟩] := by
    decide
  rw [e] at h
  simp only [List.cons.injEq, and_true] at h
  obtain ⟨h1, h2⟩ := h
  rw [← h1, ← h2] at hne
  exact hne rfl

/-- C14: `ad77681_set_crc_sel` with `AD77681_NO_CRC` makes exactly one masked
write, to the interface-format register with the CRC-enable mask and the field
`AD77681_INTERFACE_CRC_EN(0)`; with another mode it makes exactly two, in
order: the CRC-enable mask with `AD77681_INTERFACE_CRC_EN(1)`, then the
CRC-type mask with `AD77681_INTERFACE_CRC_TYPE(crc_sel)`, the second whatever
the status of the first, and the status is the bitwise OR of the two. When the
status is 0 the device has the requested mode and the recomputed frame count;
otherwise the device structure is returned as it was. -/
theorem ad77681_set_crc_sel_spec {σ : Type} (H : ad77681_h) (E : spi_engine σ)
    (dev : ad77681_dev) (desc : spi_desc σ) (crc_sel : ad77681_crc_sel) :
    let w0 := ad77681_spi_write_mask H E dev desc H.AD77681_REG_INTERFACE_FORMAT
      H.AD77681_INTERFACE_CRC_EN_MSK (H.AD77681_INTERFACE_CRC_EN 0)
    let w1 := ad77681_spi_write_mask H E dev desc H.AD77681_REG_INTERFACE_FORMAT
      H.AD77681_INTERFACE_CRC_EN_MSK (H.AD77681_INTERFACE_CRC_EN 1)
    let w2 := ad77681_spi_write_mask H E dev w1.desc H.AD77681_REG_INTERFACE_FORMAT
      H.AD77681_INTERFACE_CRC_TYPE_MSK (H.AD77681_INTERFACE_CRC_TYPE crc_sel)
    let out := ad77681_set_crc_sel H E dev desc crc_sel
    (crc_sel = AD77681_NO_CRC →
      out.desc.writes = desc.writes ++
        [⟨H.AD77681_REG_INTERFACE_FORMAT, H.AD77681_INTERFACE_CRC_EN_MSK,
          H.AD77681_INTERFACE_CRC_EN 0, w0.ret⟩] ∧
      out.desc = w0.desc ∧ out.ret = w0.ret) ∧
    (crc_sel ≠ AD77681_NO_CRC →
      out.desc.writes = desc.writes ++
        [⟨H.AD77681_REG_INTERFACE_FORMAT, H.AD77681_INTERFACE_CRC_EN_MSK,
            H.AD77681_INTERFACE_CRC_EN 1, w1.ret⟩,
          ⟨H.AD77681_REG_INTERFACE_FORMAT, H.AD77681_INTERFACE_CRC_TYPE_MSK,
            H.AD77681_INTERFACE_CRC_TYPE crc_sel, w2.ret⟩] ∧
      out.desc = w2.desc ∧ out.ret = Int.lor w1.ret w2.ret) ∧
    (out.ret = 0 →
      out.dev = (ad77681_get_frame_16bit { dev with crc_sel := crc_sel }).2 ∧
      out.dev.crc_sel = crc_sel ∧ frame_16bit_valid out.dev) ∧
    (out.ret ≠ 0 → out.dev = dev) := by
  intro w0 w1 w2 out
  have hcrc : ∀ d : ad77681_dev, (ad77681_get_frame_16bit d).2.crc_sel = d.crc_sel :=
    fun d => rfl
  by_cases hc : crc_sel = AD77681_NO_CRC
  · have hout : out = if w0.ret = SUCCESS then
          { ret := w0.ret, dev := (ad77681_get_frame_16bit { dev with crc_sel := crc_sel }).2,
            desc := w0.desc }
        else { ret := w0.ret, dev := dev, desc := w0.desc } := by
      simp only [out, ad77681_set_crc_sel, hc, if_true, w0]
    have hdesc : out.desc = w0.desc := by rw [hout]; split <;> rfl
    have hret : out.ret = w0.ret := by rw [hout]; split <;> rfl
    refine ⟨fun _ => ⟨?_, hdesc, hret⟩, fun h => absurd hc h, fun h0 => ?_, fun h0 => ?_⟩
    · rw [hdesc]
      simp only [w0, ad77681_spi_write_mask_writes]
    · have h1 : w0.ret = SUCCESS := by rw [← hret]; exact h0
      have hd : out.dev = (ad77681_get_frame_16bit { dev with crc_sel := crc_sel }).2 := by
        rw [hout, if_pos h1]
      exact ⟨hd, by rw [hd, hcrc], by rw [hd]; exact ad77681_get_frame_16bit_valid _⟩
    · have h1 : ¬ w0.ret = SUCCESS := by rw [← hret]; exact h0
      rw [hout, if_neg h1]
  · have hout : out = if Int.lor w1.ret w2.ret = SUCCESS then
          { ret := Int.lor w1.ret w2.ret,
            dev := (ad77681_get_frame_16bit { dev with crc_sel := crc_sel }).2,
            desc := w2.desc }
        else { ret := Int.lor w1.ret w2.ret, dev := dev, desc := w2.desc } := by
      simp only [out, ad77681_set_crc_sel, hc, if_false, w1, w2]
    have hdesc : out.desc = w2.desc := by rw [hout]; split <;> rfl
    have hret : out.ret = Int.lor w1.ret w2.ret := by rw [hout]; split <;> rfl
    refine ⟨fun h => absurd h hc, fun _ => ⟨?_, hdesc, hret⟩, fun h0 => ?_, fun h0 => ?_⟩
    · rw [hdesc]
      simp only [w2, w1, ad77681_spi_write_mask_writes, List.append_assoc,
        List.singleton_append]
    · have h1 : Int.lor w1.ret w2.ret = SUCCESS := by rw [← hret]; exact h0
      have hd : out.dev = (ad77681_get_frame_16bit { dev with crc_sel := crc_sel }).2 := by
        rw [hout, if_pos h1]
      exact ⟨hd, by rw [hd, hcrc], by rw [hd]; exact ad77681_get_frame_16bit_valid _⟩
    · have h1 : ¬ Int.lor w1.ret w2.ret = SUCCESS := by rw [← hret]; exact h0
      rw [hout, if_neg h1]

theorem ad77681_set_convlen_desc {σ : Type} (H : ad77681_h) (E : spi_engine σ)
    (dev : ad77681_dev) (desc : spi_desc σ) (conv_len : ad77681_conv_len) :
    (ad77681_set_convlen H E dev desc conv_len).desc =
      (ad77681_spi_write_mask H E dev desc H.AD77681_REG_INTERFACE_FORMAT
        H.AD77681_INTERFACE_CONVLEN_MSK (H.AD77681_INTERFACE_CONVLEN conv_len)).desc ∧
    (ad77681_set_convlen H E dev desc conv_len).ret =
      (ad77681_spi_write_mask H E dev desc H.AD77681_REG_INTERFACE_FORMAT
        H.AD77681_INTERFACE_CONVLEN_MSK (H.AD77681_INTERFACE_CONVLEN conv_len)).ret ∧
    (ad77681_set_convlen H E dev desc conv_len).dev.status_bit = dev.status_bit ∧
    (ad77681_set_convlen H E dev desc conv_len).dev.crc_sel = dev.crc_sel := by
  simp only [ad77681_set_convlen]
  split <;> exact ⟨rfl, rfl, rfl, rfl⟩

theorem ad77681_set_status_bit_desc {σ : Type} (H : ad77681_h) (E : spi_engine σ)
    (dev : ad77681_dev) (desc : spi_desc σ) (status_bit : Bool) :
    (ad77681_set_status_bit H E dev desc status_bit).desc =
      (ad77681_spi_write_mask H E dev desc H.AD77681_REG_INTERFACE_FORMAT
        H.AD77681_INTERFACE_STATUS_EN_MSK (H.AD77681_INTERFACE_STATUS_EN status_bit)).desc ∧
    (ad77681_set_status_bit H E dev desc status_bit).ret =
      (ad77681_spi_write_mask H E dev desc H.AD77681_REG_INTERFACE_FORMAT
        H.AD77681_INTERFACE_STATUS_EN_MSK (H.AD77681_INTERFACE_STATUS_EN status_bit)).ret ∧
    (ad77681_set_status_bit H E dev desc status_bit).dev.crc_sel = dev.crc_sel := by
  simp only [ad77681_set_status_bit]
  split <;> exact ⟨rfl, rfl, rfl⟩

theorem ad77681_set_crc_sel_desc {σ : Type} (H : ad77681_h) (E : spi_engine σ)
    (dev : ad77681_dev) (desc : spi_desc σ) (crc_sel : ad77681_crc_sel) :
    ((ad77681_set_crc_sel H E dev desc crc_sel).desc =
      if crc_sel = AD77681_NO_CRC then
        (ad77681_spi_write_mask H E dev desc H.AD77681_REG_INTERFACE_FORMAT
          H.AD77681_INTERFACE_CRC_EN_MSK (H.AD77681_INTERFACE_CRC_EN 0)).desc
      else
        (ad77681_spi_write_mask H E dev
          (ad77681_spi_write_mask H E dev desc H.AD77681_REG_INTERFACE_FORMAT
            H.AD77681_INTERFACE_CRC_EN_MSK (H.AD77681_INTERFACE_CRC_EN 1)).desc
          H.AD77681_REG_INTERFACE_FORMAT H.AD77681_INTERFACE_CRC_TYPE_MSK
          (H.AD77681_INTERFACE_CRC_TYPE crc_sel)).desc) ∧
    ((ad77681_set_crc_sel H E dev desc crc_sel).ret =
      if crc_sel = AD77681_NO_CRC then
        (ad77681_spi_write_mask H E dev desc H.AD77681_REG_INTERFACE_FORMAT
          H.AD77681_INTERFACE_CRC_EN_MSK (H.AD77681_INTERFACE_CRC_EN 0)).ret
      else
        Int.lor
          (ad77681_spi_write_mask H E dev desc H.AD77681_REG_INTERFACE_FORMAT
            H.AD77681_INTERFACE_CRC_EN_MSK (H.AD77681_INTERFACE_CRC_EN 1)).ret
          (ad77681_spi_write_mask H E dev
            (ad77681_spi_write_mask H E dev desc H.AD77681_REG_INTERFACE_FORMAT
              H.AD77681_INTERFACE_CRC_EN_MSK (H.AD77681_INTERFACE_CRC_EN 1)).desc
            H.AD77681_REG_INTERFACE_FORMAT H.AD77681_INTERFACE_CRC_TYPE_MSK
            (H.AD77681_INTERFACE_CRC_TYPE crc_sel)).ret) := by
  by_cases hc : crc_sel = AD77681_NO_CRC
  · simp only [ad77681_set_crc_sel, hc, if_true]
    split <;> exact ⟨rfl, rfl⟩
  · simp only [ad77681_set_crc_sel, hc, if_false]
    split <;> exact ⟨rfl, rfl⟩

theorem or_statuses_one (a m d : Nat) (r : Int) : or_statuses [⟨a, m, d, r⟩] = r :=
  int_lor_zero_left r

theorem or_statuses_two (a1 m1 d1 a2 m2 d2 : Nat) (r1 r2 : Int) :
    or_statuses [⟨a1, m1, d1, r1⟩, ⟨a2, m2, d2, r2⟩] = Int.lor r1 r2 := by
  show Int.lor (Int.lor 0 r1) r2 = _
  rw [int_lor_zero_left]

/-- The status of each of the five setters that aggregate is the OR of the
statuses of the masked writes it made. -/
theorem setters_ret_or {σ : Type} (H : ad77681_h) (E : spi_engine σ) (dev : ad77681_dev)
    (desc : spi_desc σ) (c : setter_call)
    (hc : ∀ d, c ≠ .set_mclk_div d) (hc2 : ∀ m x s, c ≠ .set_conv_mode m x s) :
    (run_setter H E dev desc c).ret =
      or_statuses ((run_setter H E dev desc c).desc.writes.drop desc.writes.length) := by
  cases c with
  | set_power_mode mode =>
    show Int.lor 0 _ = or_statuses (List.drop _ (ad77681_spi_write_mask H E dev desc _ _ _).desc.writes)
    rw [ad77681_spi_write_mask_writes, List.drop_left, or_statuses_one, int_lor_zero_left]
  | set_mclk_div clk_div => exact absurd rfl (hc clk_div)
  | set_conv_mode conv_mode diag_mux_sel conv_diag_sel =>
    exact absurd rfl (hc2 conv_mode diag_mux_sel conv_diag_sel)
  | set_convlen conv_len =>
    simp only [run_setter]
    rw [(ad77681_set_convlen_desc H E dev desc conv_len).1,
      (ad77681_set_convlen_desc H E dev desc conv_len).2.1, ad77681_spi_write_mask_writes,
      List.drop_left, or_statuses_one]
  | set_crc_sel crc_sel =>
    simp only [run_setter]
    rw [(ad77681_set_crc_sel_desc H E dev desc crc_sel).1,
      (ad77681_set_crc_sel_desc H E dev desc crc_sel).2]
    split
    · rw [ad77681_spi_write_mask_writes, List.drop_left, or_statuses_one]
    · rw [ad77681_spi_write_mask_writes, ad77681_spi_write_mask_writes, List.append_assoc,
        List.drop_left]
      exact (or_statuses_two _ _ _ _ _ _ _ _).symm
  | set_status_bit status_bit =>
    simp only [run_setter]
    rw [(ad77681_set_status_bit_desc H E dev desc status_bit).1,
      (ad77681_set_status_bit_desc H E dev desc status_bit).2.1, ad77681_spi_write_mask_writes,
      List.drop_left, or_statuses_one]
  | soft_reset =>
    show Int.lor (Int.lor 0 _) _ = or_statuses (List.drop _
      (ad77681_spi_write_mask H E dev (ad77681_spi_write_mask H E dev desc _ _ _).desc _ _
        _).desc.writes)
    rw [ad77681_spi_write_mask_writes, ad77681_spi_write_mask_writes, List.append_assoc,
      List.drop_left, int_lor_zero_left]
    exact (or_statuses_two _ _ _ _ _ _ _ _).symm

/-- C11, at the failing inputs: `ad77681_set_power_mode`,
`ad77681_set_convlen`, `ad77681_set_crc_sel`, `ad77681_set_status_bit` and
`ad77681_soft_reset` return the OR of the statuses of their masked writes;
`ad77681_set_mclk_div` and `ad77681_set_conv_mode` return 0 whatever the
transport does: over the transport on which every exchange fails, the OR of
the statuses of their masked writes is -1 and they return 0. -/
theorem ad77681_setters_status_divergence :
    (∀ (σ : Type) (H : ad77681_h) (E : spi_engine σ) (dev : ad77681_dev) (desc : spi_desc σ)
        (c : setter_call),
      (∀ d, c ≠ .set_mclk_div d) → (∀ m x s, c ≠ .set_conv_mode m x s) →
      (run_setter H E dev desc c).ret =
        or_statuses ((run_setter H E dev desc c).desc.writes.drop desc.writes.length)) ∧
    (ad77681_set_mclk_div ad77681_regmap dead_engine
      (dev_with AD77681_CONV_24BIT AD77681_NO_CRC false 2) dead_desc
      AD77681_MCLK_DIV_2).ret = 0 ∧
    or_statuses (ad77681_set_mclk_div ad77681_regmap dead_engine
      (dev_with AD77681_CONV_24BIT AD77681_NO_CRC false 2) dead_desc
      AD77681_MCLK_DIV_2).desc.writes = -1 ∧
    (ad77681_set_conv_mode ad77681_regmap dead_engine
      (dev_with AD77681_CONV_24BIT AD77681_NO_CRC false 2) dead_desc
      AD77681_CONV_SINGLE AD77681_AIN_SHORT true).ret = 0 ∧
    or_statuses (ad77681_set_conv_mode ad77681_regmap dead_engine
      (dev_with AD77681_CONV_24BIT AD77681_NO_CRC false 2) dead_desc
      AD77681_CONV_SINGLE AD77681_AIN_SHORT true).desc.writes = -1
    := by
  refine ⟨fun _ H E dev desc c h1 h2 => setters_ret_or H E dev desc c h1 h2,
    by decide, ?_, by decide, ?_⟩
  · have e : (ad77681_set_mclk_div ad77681_regmap dead_engine
        (dev_with AD77681_CONV_24BIT AD77681_NO_CRC false 2) dead_desc
        AD77681_MCLK_DIV_2).desc.writes = [⟨0x15, 0x30, 0x30, -1⟩] := by decide
    rw [e, or_statuses_one]
  · have e : (ad77681_set_conv_mode ad77681_regmap dead_engine
        (dev_with AD77681_CONV_24BIT AD77681_NO_CRC false 2) dead_desc
        AD77681_CONV_SINGLE AD77681_AIN_SHORT true).desc.writes =
        [⟨0x18, 0x7, 0x2, -1⟩, ⟨0x18, 0xF0, 0x80, -1⟩, ⟨0x18, 0x8, 0x8, -1⟩] := by decide
    rw [e]
    show Int.lor (Int.lor (Int.lor 0 (-1)) (-1)) (-1) = -1
    rw [int_lor_zero_left]
    rfl

/-! ### Setup -/

theorem ad77681_spi_write_mask_args {σ : Type} (H : ad77681_h) (E : spi_engine σ)
    (dev : ad77681_dev) (desc : spi_desc σ) (reg_addr mask data : Nat) :
    (ad77681_spi_write_mask H E dev desc reg_addr mask data).desc.writes.map write_args =
      desc.writes.map write_args ++ [(reg_addr, mask, data)] := by
  rw [ad77681_spi_write_mask_writes, List.map_append]
  rfl

/-- A call of a configuration function makes the masked writes of
`setter_writes`, in order, whatever their statuses. -/
theorem run_setter_writes {σ : Type} (H : ad77681_h) (E : spi_engine σ) (dev : ad77681_dev)
    (desc : spi_desc σ) (c : setter_call) :
    (run_setter H E dev desc c).desc.writes.map write_args =
      desc.writes.map write_args ++ setter_writes H c := by
  cases c with
  | set_power_mode mode => exact ad77681_spi_write_mask_args H E dev desc _ _ _
  | set_mclk_div clk_div => exact ad77681_spi_write_mask_args H E dev desc _ _ _
  | set_conv_mode conv_mode diag_mux_sel conv_diag_sel =>
    show (ad77681_spi_write_mask H E dev (ad77681_spi_write_mask H E dev
      (ad77681_spi_write_mask H E dev desc _ _ _).desc _ _ _).desc _ _ _).desc.writes.map
      write_args = _
    simp only [ad77681_spi_write_mask_args, List.append_assoc, List.singleton_append,
      setter_writes, List.cons_append, List.nil_append]
  | set_convlen conv_len =>
    simp only [run_setter, (ad77681_set_convlen_desc H E dev desc conv_len).1,
      ad77681_spi_write_mask_args, setter_writes]
  | set_crc_sel crc_sel =>
    simp only [run_setter, (ad77681_set_crc_sel_desc H E dev desc crc_sel).1, setter_writes]
    split
    · simp only [ad77681_spi_write_mask_args]
    · simp only [ad77681_spi_write_mask_args, List.append_assoc, List.singleton_append]
  | set_status_bit status_bit =>
    simp only [run_setter, (ad77681_set_status_bit_desc H E dev desc status_bit).1,
      ad77681_spi_write_mask_args, setter_writes]
  | soft_reset =>
    show (ad77681_spi_write_mask H E dev
      (ad77681_spi_write_mask H E dev desc _ _ _).desc _ _ _).desc.writes.map write_args = _
    simp only [ad77681_spi_write_mask_args, List.append_assoc, List.singleton_append,
      setter_writes]

/-- A call of a configuration function makes, for each of its masked writes in
order, a register read and then a register write of that register. -/
theorem run_setter_cmds {σ : Type} (H : ad77681_h) (E : spi_engine σ) (dev : ad77681_dev)
    (desc : spi_desc σ) (c : setter_call) :
    (run_setter H E dev desc c).desc.calls.map (fun c => c.frame.headD 0) =
      desc.calls.map (fun c => c.frame.headD 0) ++ (setter_writes H c).flatMap (write_cmds H) := by
  cases c with
  | set_power_mode mode => exact ad77681_spi_write_mask_cmds H E dev desc _ _ _
  | set_mclk_div clk_div => exact ad77681_spi_write_mask_cmds H E dev desc _ _ _
  | set_conv_mode conv_mode diag_mux_sel conv_diag_sel =>
    show (ad77681_spi_write_mask H E dev (ad77681_spi_write_mask H E dev
      (ad77681_spi_write_mask H E dev desc _ _ _).desc _ _ _).desc _ _ _).desc.calls.map _ = _
    simp only [ad77681_spi_write_mask_cmds, List.append_assoc, setter_writes, write_cmds,
      List.flatMap_cons, List.flatMap_nil, List.append_nil, List.cons_append, List.nil_append]
  | set_convlen conv_len =>
    simp only [run_setter, (ad77681_set_convlen_desc H E dev desc conv_len).1,
      ad77681_spi_write_mask_cmds, setter_writes, write_cmds, List.flatMap_cons,
      List.flatMap_nil, List.append_nil]
  | set_crc_sel crc_sel =>
    simp only [run_setter, (ad77681_set_crc_sel_desc H E dev desc crc_sel).1, setter_writes]
    split
    · simp only [ad77681_spi_write_mask_cmds, write_cmds, List.flatMap_cons, List.flatMap_nil,
        List.append_nil]
    · simp only [ad77681_spi_write_mask_cmds, List.append_assoc, write_cmds, List.flatMap_cons,
        List.flatMap_nil, List.append_nil, List.cons_append, List.nil_append]
  | set_status_bit status_bit =>
    simp only [run_setter, (ad77681_set_status_bit_desc H E dev desc status_bit).1,
      ad77681_spi_write_mask_cmds, setter_writes, write_cmds, List.flatMap_cons,
      List.flatMap_nil, List.append_nil]
  | soft_reset =>
    show (ad77681_spi_write_mask H E dev
      (ad77681_spi_write_mask H E dev desc _ _ _).desc _ _ _).desc.calls.map _ = _
    simp only [ad77681_spi_write_mask_cmds, List.append_assoc, setter_writes, write_cmds,
      List.flatMap_cons, List.flatMap_nil, List.append_nil, List.cons_append, List.nil_append]

theorem run_setters_writes {σ : Type} (H : ad77681_h) (E : spi_engine σ)
    (s : ad77681_dev × spi_desc σ) (cs : List setter_call) :
    (run_setters H E s cs).2.writes.map write_args =
      s.2.writes.map write_args ++ cs.flatMap (setter_writes H) := by
  induction cs generalizing s with
  | nil => simp [run_setters]
  | cons c cs ih =>
    rw [run_setters, ih, List.flatMap_cons, ← List.append_assoc]
    congr 1
    exact run_setter_writes H E s.1 s.2 c

theorem run_setters_cmds {σ : Type} (H : ad77681_h) (E : spi_engine σ)
    (s : ad77681_dev × spi_desc σ) (cs : List setter_call) :
    (run_setters H E s cs).2.calls.map (fun c => c.frame.headD 0) =
      s.2.calls.map (fun c => c.frame.headD 0) ++
        (cs.flatMap (setter_writes H)).flatMap (write_cmds H) := by
  induction cs generalizing s with
  | nil => simp [run_setters]
  | cons c cs ih =>
    rw [run_setters, ih, List.flatMap_cons, List.flatMap_append, ← List.append_assoc]
    congr 1
    exact run_setter_cmds H E s.1 s.2 c

/-- When the allocation and the initialisation of the transport succeed,
`ad77681_setup` is the run of its seven configuration steps, in order, on the
device structure filled from the parameters. -/
theorem ad77681_setup_eq_run {σ : Type} (H : ad77681_h) (E : spi_engine σ)
    (block : ad77681_dev) (init : ad77681_init_param) (ret0 : Int) (st : σ)
    (hret : ¬ ret0 < 0) :
    (ad77681_setup H E (some block) init (ret0, st)).device =
      some (run_setters H E (setup_dev block init, { st := st, calls := [], writes := [] })
        (setup_steps init)) ∧
    (ad77681_setup H E (some block) init (ret0, st)).calls =
      (run_setters H E (setup_dev block init, { st := st, calls := [], writes := [] })
        (setup_steps init)).2.calls := by
  have h5 := fun (dev : ad77681_dev) (desc : spi_desc σ) (c : ad77681_conv_len) =>
    (ad77681_set_convlen_desc H E dev desc c).2.2
  have h6 := fun (dev : ad77681_dev) (desc : spi_desc σ) (b : Bool) =>
    (ad77681_set_status_bit_desc H E dev desc b).2.2
  simp only [ad77681_setup, if_neg hret, setup_steps, run_setters, run_setter]
  have e1 : ∀ (dev : ad77681_dev) (desc : spi_desc σ),
      (ad77681_soft_reset H E dev desc).dev = dev := fun _ _ => rfl
  have e2 : ∀ (dev : ad77681_dev) (desc : spi_desc σ) (m : ad77681_power_mode),
      (ad77681_set_power_mode H E dev desc m).dev = dev := fun _ _ _ => rfl
  have e3 : ∀ (dev : ad77681_dev) (desc : spi_desc σ) (d : ad77681_mclk_div),
      (ad77681_set_mclk_div H E dev desc d).dev = { dev with mclk_div := d } :=
    fun _ _ _ => rfl
  have e4 : ∀ (dev : ad77681_dev) (desc : spi_desc σ) (m : ad77681_conv_mode)
      (x : ad77681_conv_diag_mux) (s : Bool),
      (ad77681_set_conv_mode H E dev desc m x s).dev =
        { dev with conv_mode := m, diag_mux_sel := x, conv_diag_sel := s } :=
    fun _ _ _ _ _ => rfl
  simp only [e1, e2, e3, e4, (h5 _ _ _).1, (h5 _ _ _).2, (h6 _ _ _), setup_dev]
  exact ⟨trivial, trivial⟩

/-- C12: for every parameter set and every transport, once the allocation and
the initialisation of the transport have succeeded, `ad77681_setup` is the run
of soft_reset, set_power_mode, set_mclk_div, set_conv_mode, set_convlen,
set_status_bit, set_crc_sel in this order, each once, whatever the statuses:
its masked writes are those of the seven steps in order, the two writes of the
soft reset first, and its transactions are the register read and the register
write of each masked write in turn. When the initialisation of the transport
fails, or the allocation, no transaction is made. -/
theorem ad77681_setup_order {σ : Type} (H : ad77681_h) (E : spi_engine σ)
    (block : ad77681_dev) (init : ad77681_init_param) (ret0 : Int) (st : σ) :
    (¬ ret0 < 0 →
      (ad77681_setup H E (some block) init (ret0, st)).device =
        some (run_setters H E (setup_dev block init, { st := st, calls := [], writes := [] })
          (setup_steps init)) ∧
      ∃ dev desc, (ad77681_setup H E (some block) init (ret0, st)).device = some (dev, desc) ∧
        (ad77681_setup H E (some block) init (ret0, st)).calls = desc.calls ∧
        desc.writes.map write_args =
          [(H.AD77681_REG_SYNC_RESET, H.AD77681_SYNC_RST_SPI_RESET_MSK,
              H.AD77681_SYNC_RST_SPI_RESET 0x3),
            (H.AD77681_REG_SYNC_RESET, H.AD77681_SYNC_RST_SPI_RESET_MSK,
              H.AD77681_SYNC_RST_SPI_RESET 0x2),
            (H.AD77681_REG_POWER_CLOCK, H.AD77681_POWER_CLK_PWRMODE_MSK,
              H.AD77681_POWER_CLK_PWRMODE init.power_mode),
            (H.AD77681_REG_POWER_CLOCK, H.AD77681_POWER_CLK_MCLK_DIV_MSK,
              H.AD77681_POWER_CLK_MCLK_DIV init.mclk_div),
            (H.AD77681_REG_CONVERSION, H.AD77681_CONVERSION_MODE_MSK,
              H.AD77681_CONVERSION_MODE init.conv_mode),
            (H.AD77681_REG_CONVERSION, H.AD77681_CONVERSION_DIAG_MUX_MSK,
              H.AD77681_CONVERSION_DIAG_MUX_SEL init.diag_mux_sel),
            (H.AD77681_REG_CONVERSION, H.AD77681_CONVERSION_DIAG_SEL_MSK,
              H.AD77681_CONVERSION_DIAG_SEL init.conv_diag_sel),
            (H.AD77681_REG_INTERFACE_FORMAT, H.AD77681_INTERFACE_CONVLEN_MSK,
              H.AD77681_INTERFACE_CONVLEN init.conv_len),
            (H.AD77681_REG_INTERFACE_FORMAT, H.AD77681_INTERFACE_STATUS_EN_MSK,
              H.AD77681_INTERFACE_STATUS_EN init.status_bit)]
            ++ setter_writes H (.set_crc_sel init.crc_sel) ∧
        desc.calls.map (fun c => c.frame.headD 0) =
          (desc.writes.map write_args).flatMap (write_cmds H) ∧
        (desc.calls.map (fun c => c.frame.headD 0)).take 4 =
          [u8 (H.AD77681_REG_READ H.AD77681_REG_SYNC_RESET),
            u8 (H.AD77681_REG_WRITE H.AD77681_REG_SYNC_RESET),
            u8 (H.AD77681_REG_READ H.AD77681_REG_SYNC_RESET),
            u8 (H.AD77681_REG_WRITE H.AD77681_REG_SYNC_RESET)]) ∧
    (ret0 < 0 →
      (ad77681_setup H E (some block) init (ret0, st)).ret = ret0 ∧
      (ad77681_setup H E (some block) init (ret0, st)).device = none ∧
      (ad77681_setup H E (some block) init (ret0, st)).calls = []) ∧
    (ad77681_setup H E none init (ret0, st)).ret = -1 ∧
    (ad77681_setup H E none init (ret0, st)).device = none ∧
    (ad77681_setup H E none init (ret0, st)).calls = [] := by
  refine ⟨fun hret => ?_, fun hret => ?_, rfl, rfl, rfl⟩
  · obtain ⟨hdev, hcalls⟩ := ad77681_setup_eq_run H E block init ret0 st hret
    have hw := run_setters_writes H E
      (setup_dev block init, { st := st, calls := [], writes := [] }) (setup_steps init)
    have hc := run_setters_cmds H E
      (setup_dev block init, { st := st, calls := [], writes := [] }) (setup_steps init)
    simp only [List.map_nil, List.nil_append] at hw hc
    have hsteps : (setup_steps init).flatMap (setter_writes H) =
        [(H.AD77681_REG_SYNC_RESET, H.AD77681_SYNC_RST_SPI_RESET_MSK,
            H.AD77681_SYNC_RST_SPI_RESET 0x3),
          (H.AD77681_REG_SYNC_RESET, H.AD77681_SYNC_RST_SPI_RESET_MSK,
            H.AD77681_SYNC_RST_SPI_RESET 0x2),
          (H.AD77681_REG_POWER_CLOCK, H.AD77681_POWER_CLK_PWRMODE_MSK,
            H.AD77681_POWER_CLK_PWRMODE init.power_mode),
          (H.AD77681_REG_POWER_CLOCK, H.AD77681_POWER_CLK_MCLK_DIV_MSK,
            H.AD77681_POWER_CLK_MCLK_DIV init.mclk_div),
          (H.AD77681_REG_CONVERSION, H.AD77681_CONVERSION_MODE_MSK,
            H.AD77681_CONVERSION_MODE init.conv_mode),
          (H.AD77681_REG_CONVERSION, H.AD77681_CONVERSION_DIAG_MUX_MSK,
            H.AD77681_CONVERSION_DIAG_MUX_SEL init.diag_mux_sel),
          (H.AD77681_REG_CONVERSION, H.AD77681_CONVERSION_DIAG_SEL_MSK,
            H.AD77681_CONVERSION_DIAG_SEL init.conv_diag_sel),
          (H.AD77681_REG_INTERFACE_FORMAT, H.AD77681_INTERFACE_CONVLEN_MSK,
            H.AD77681_INTERFACE_CONVLEN init.conv_len),
          (H.AD77681_REG_INTERFACE_FORMAT, H.AD77681_INTERFACE_STATUS_EN_MSK,
            H.AD77681_INTERFACE_STATUS_EN init.status_bit)]
          ++ setter_writes H (.set_crc_sel init.crc_sel) := by
      simp [setup_steps, setter_writes]
    rw [hsteps] at hw
    generalize run_setters H E (setup_dev block init, { st := st, calls := [], writes := [] })
      (setup_steps init) = r at hdev hcalls hw hc
    refine ⟨hdev, r.1, r.2, hdev, hcalls, hw, ?_, ?_⟩
    · rw [hc, hw, hsteps]
    · rw [hc, hsteps]
      simp [write_cmds]
  · simp only [ad77681_setup, if_pos hret]
    exact ⟨trivial, trivial, trivial⟩

/-- C12, evaluated: over the register file, with the allocation and the
initialisation of the transport successful (status 0), the device produced is
the one the seven steps produce in order. -/
theorem ad77681_setup_order_witness :
    ¬ (0 : Int) < 0 ∧
      (ad77681_setup ad77681_regmap (regfile_engine ad77681_regmap AD77681_NO_CRC (fun _ => 0))
        (some (dev_with AD77681_CONV_16BIT AD77681_NO_CRC false 0))
        (init_with AD77681_CONV_24BIT AD77681_NO_CRC true) (0, regs_0x14)).device =
      some (run_setters ad77681_regmap
        (regfile_engine ad77681_regmap AD77681_NO_CRC (fun _ => 0))
        (setup_dev (dev_with AD77681_CONV_16BIT AD77681_NO_CRC false 0)
          (init_with AD77681_CONV_24BIT AD77681_NO_CRC true),
          { st := regs_0x14, calls := [], writes := [] })
        (setup_steps (init_with AD77681_CONV_24BIT AD77681_NO_CRC true))) :=
  ⟨by decide,
    ((ad77681_setup_order ad77681_regmap
      (regfile_engine ad77681_regmap AD77681_NO_CRC (fun _ => 0))
      (dev_with AD77681_CONV_16BIT AD77681_NO_CRC false 0)
      (init_with AD77681_CONV_24BIT AD77681_NO_CRC true) 0 regs_0x14).1 (by decide)).1⟩

/-- The transactions of a setup over the register file, by their command bytes:
the soft reset (register 0x1D) twice, power mode and clock divider (0x15), the
three fields of the conversion register (0x18), then sample width, status flag
and checksum enable in the interface-format register (0x14); each masked write
is a read (bit 6 set) followed by a write. -/
theorem ad77681_setup_regfile_cmds :
    (ad77681_setup ad77681_regmap (regfile_engine ad77681_regmap AD77681_NO_CRC (fun _ => 0))
      (some (dev_with AD77681_CONV_16BIT AD77681_NO_CRC false 0))
      (init_with AD77681_CONV_24BIT AD77681_NO_CRC true) (0, regs_0x14)).calls.map
        (fun c => c.frame.headD 0) =
      [0x5D, 0x1D, 0x5D, 0x1D, 0x55, 0x15, 0x55, 0x15, 0x58, 0x18, 0x58, 0x18, 0x58, 0x18,
        0x54, 0x14, 0x54, 0x14, 0x54, 0x14] := by
  decide

/-! ### Calls of the XOR checksum -/

/-- The loop of `ad77681_compute_xor` stores at the indices from `i` up to
`data_size`, one after the other, and keeps the size of the scratch array. -/
theorem compute_xor_loop_stores (data_size fuel i : Nat) (buf : auto_bytes) (data : List Nat)
    (crc : Nat) :
    (compute_xor_loop data_size fuel i buf data crc).2.stores =
        buf.stores ++ List.range' i (min fuel (data_size - i)) ∧
      (compute_xor_loop data_size fuel i buf data crc).2.cells.length = buf.cells.length := by
  induction fuel generalizing i buf data crc with
  | zero => simp [compute_xor_loop]
  | succ n ih =>
    rw [compute_xor_loop]
    by_cases hi : i < data_size
    · rw [if_pos hi]
      obtain ⟨h1, h2⟩ := ih (i + 1) (array_store buf i (data.headD 0)) data.tail
        (crc ^^^ (array_store buf i (data.headD 0)).cells.getD i 0)
      refine ⟨?_, ?_⟩
      · rw [h1]
        have e : min (n + 1) (data_size - i) = min n (data_size - (i + 1)) + 1 := by omega
        rw [e, List.range'_succ]
        simp [array_store]
      · rw [h2]
        simp [array_store]
    · rw [if_neg hi]
      have e : min (n + 1) (data_size - i) = 0 := by omega
      simp [e]

/-- The stores of `ad77681_compute_xor` into its scratch array of three bytes
are at the indices `0 .. data_size - 1`. -/
theorem compute_xor_run_stores (data : List Nat) (data_size init_val : Nat) :
    (compute_xor_run data data_size init_val).2.stores = List.range data_size ∧
      (compute_xor_run data data_size init_val).2.cells.length = 3 := by
  obtain ⟨h1, h2⟩ := compute_xor_loop_stores data_size data_size 0
    { cells := [0, 0, 0], stores := [] } data init_val
  refine ⟨?_, h2⟩
  show (compute_xor_loop data_size data_size 0 _ data init_val).2.stores = _
  rw [h1, List.range_eq_range']
  simp

/-- A register read calls `ad77681_compute_xor` once, in mode XOR after an
exchange that did not fail, with the length 2; the call stores at the indices 0
and 1 of the three-byte scratch array. -/
theorem ad77681_spi_reg_read_xors {σ : Type} (H : ad77681_h) (E : spi_engine σ)
    (dev : ad77681_dev) (desc : spi_desc σ) (reg_addr : Nat) (reg_data : List Nat) :
    (ad77681_spi_reg_read H E dev desc reg_addr reg_data).desc.xors =
      desc.xors ++
        (if dev.crc_sel = AD77681_XOR ∧
            0 ≤ (E.write_and_read desc.st (reg_read_frame H E dev desc reg_addr)).ret
          then [⟨2, 3, [0, 1]⟩] else []) := by
  obtain ⟨pm, md, cm, dm, ds, cl, cs, sb, f16⟩ := dev
  cases cs
  · by_cases hnf : (E.write_and_read desc.st
        [u8 (H.AD77681_REG_READ reg_addr), 0, u8 (E.indeterminate desc.st 2)]).ret < 0 <;>
      simp [ad77681_spi_reg_read, spi_write_and_read, auto_array, List.range_succ,
        reg_read_frame, hnf]
  · by_cases hnf : (E.write_and_read desc.st
        [u8 (H.AD77681_REG_READ reg_addr), 0, u8 (E.indeterminate desc.st 2)]).ret < 0
    · simp [ad77681_spi_reg_read, spi_write_and_read, auto_array, List.range_succ,
        reg_read_frame, hnf, not_le.mpr hnf]
    · simp [ad77681_spi_reg_read, spi_write_and_read, auto_array, List.range_succ,
        reg_read_frame, hnf, not_lt.mp hnf, compute_xor_call, compute_xor_run,
        compute_xor_loop, array_store]
  · simp [ad77681_spi_reg_read, spi_write_and_read, auto_array, List.range_succ,
      reg_read_frame]
    split <;> rfl

theorem ad77681_spi_reg_write_xors {σ : Type} (H : ad77681_h) (E : spi_engine σ)
    (dev : ad77681_dev) (desc : spi_desc σ) (reg_addr reg_data : Nat) :
    (ad77681_spi_reg_write H E dev desc reg_addr reg_data).desc.xors = desc.xors := rfl

theorem ad77681_spi_read_adc_data_xors {σ : Type} (H : ad77681_h) (E : spi_engine σ)
    (dev : ad77681_dev) (desc : spi_desc σ) (adc_data : List Nat) :
    (ad77681_spi_read_adc_data H E dev desc adc_data).desc.xors = desc.xors := by
  rw [ad77681_spi_read_adc_data_eq]
  split
  · rfl
  · split <;> rfl

theorem xors_within_refl {σ : Type} (a b : spi_desc σ) (h : b.xors = a.xors) :
    xors_within a b :=
  ⟨[], by simp [h], by simp⟩

theorem xors_within_trans {σ : Type} (a b c : spi_desc σ) (h1 : xors_within a b)
    (h2 : xors_within b c) : xors_within a c := by
  obtain ⟨l1, e1, p1⟩ := h1
  obtain ⟨l2, e2, p2⟩ := h2
  refine ⟨l1 ++ l2, by rw [e2, e1, List.append_assoc], fun x hx => ?_⟩
  rcases List.mem_append.mp hx with h | h
  · exact p1 x h
  · exact p2 x h

theorem ad77681_spi_reg_read_within {σ : Type} (H : ad77681_h) (E : spi_engine σ)
    (dev : ad77681_dev) (desc : spi_desc σ) (reg_addr : Nat) (reg_data : List Nat) :
    xors_within desc (ad77681_spi_reg_read H E dev desc reg_addr reg_data).desc := by
  refine ⟨_, ad77681_spi_reg_read_xors H E dev desc reg_addr reg_data, fun c hc => ?_⟩
  split at hc
  · rw [List.mem_singleton] at hc
    subst hc
    decide
  · simp at hc

theorem ad77681_spi_write_mask_within {σ : Type} (H : ad77681_h) (E : spi_engine σ)
    (dev : ad77681_dev) (desc : spi_desc σ) (reg_addr mask data : Nat) :
    xors_within desc (ad77681_spi_write_mask H E dev desc reg_addr mask data).desc :=
  xors_within_trans _ _ _ (ad77681_spi_reg_read_within H E dev desc reg_addr _)
    (xors_within_refl _ _ rfl)

theorem run_setter_within {σ : Type} (H : ad77681_h) (E : spi_engine σ) (dev : ad77681_dev)
    (desc : spi_desc σ) (c : setter_call) :
    xors_within desc (run_setter H E dev desc c).desc := by
  cases c with
  | set_power_mode mode => exact ad77681_spi_write_mask_within H E dev desc _ _ _
  | set_mclk_div clk_div => exact ad77681_spi_write_mask_within H E dev desc _ _ _
  | set_conv_mode conv_mode diag_mux_sel conv_diag_sel =>
    exact xors_within_trans _ _ _ (xors_within_trans _ _ _
      (ad77681_spi_write_mask_within H E dev desc _ _ _)
      (ad77681_spi_write_mask_within H E dev _ _ _ _))
      (ad77681_spi_write_mask_within H E dev _ _ _ _)
  | set_convlen conv_len =>
    simp only [run_setter, (ad77681_set_convlen_desc H E dev desc conv_len).1]
    exact ad77681_spi_write_mask_within H E dev desc _ _ _
  | set_crc_sel crc_sel =>
    simp only [run_setter, (ad77681_set_crc_sel_desc H E dev desc crc_sel).1]
    split
    · exact ad77681_spi_write_mask_within H E dev desc _ _ _
    · exact xors_within_trans _ _ _ (ad77681_spi_write_mask_within H E dev desc _ _ _)
        (ad77681_spi_write_mask_within H E dev _ _ _ _)
  | set_status_bit status_bit =>
    simp only [run_setter, (ad77681_set_status_bit_desc H E dev desc status_bit).1]
    exact ad77681_spi_write_mask_within H E dev desc _ _ _
  | soft_reset =>
    exact xors_within_trans _ _ _ (ad77681_spi_write_mask_within H E dev desc _ _ _)
      (ad77681_spi_write_mask_within H E dev _ _ _ _)

theorem run_setters_within {σ : Type} (H : ad77681_h) (E : spi_engine σ)
    (s : ad77681_dev × spi_desc σ) (cs : List setter_call) :
    xors_within s.2 (run_setters H E s cs).2 := by
  induction cs generalizing s with
  | nil => exact xors_within_refl _ _ rfl
  | cons c cs ih =>
    exact xors_within_trans _ _ _ (run_setter_within H E s.1 s.2 c) (ih _)

/-- C19: the driver never asks the transport for more bytes than the array it
passes holds: a register read and a register write each exchange 2 or 3 bytes
of a 3-byte array, a conversion read exchanges between 3 and 6 bytes of a 6-byte
array. `ad77681_compute_xor` stores at the indices `0 .. data_size - 1` of its
scratch array of 3 bytes, and the driver calls it in a register read only, in
mode XOR after an exchange that did not fail, with the length 2, so that the
stores are at the indices 0 and 1; a register write and a conversion read make
no call of it, and the calls made by a masked write, by each configuration
function and by a whole setup all pass a length that is at most 3 and store
below index 3. -/
theorem ad77681_exchange_within_buffer {σ : Type} (H : ad77681_h) (E : spi_engine σ)
    (dev : ad77681_dev) (desc : spi_desc σ) (reg_addr reg_value mask : Nat)
    (reg_data adc_data : List Nat) (call : setter_call) (block : ad77681_dev)
    (init : ad77681_init_param) (ret0 : Int) (st : σ) :
    (∃ c, (ad77681_spi_reg_read H E dev desc reg_addr reg_data).desc.calls = desc.calls ++ [c] ∧
      c.capacity = 3 ∧ 2 ≤ c.bytes_number ∧ c.bytes_number ≤ c.capacity) ∧
    (∃ c, (ad77681_spi_reg_write H E dev desc reg_addr reg_value).desc.calls =
        desc.calls ++ [c] ∧
      c.capacity = 3 ∧ 2 ≤ c.bytes_number ∧ c.bytes_number ≤ c.capacity) ∧
    (∃ c, (ad77681_spi_read_adc_data H E dev desc adc_data).desc.calls = desc.calls ++ [c] ∧
      c.capacity = 6 ∧ 3 ≤ c.bytes_number ∧ c.bytes_number ≤ c.capacity) ∧
    (∀ (data : List Nat) (data_size init_val : Nat),
      (compute_xor_run data data_size init_val).2.stores = List.range data_size ∧
      (compute_xor_run data data_size init_val).2.cells.length = 3) ∧
    (ad77681_spi_reg_read H E dev desc reg_addr reg_data).desc.xors =
      desc.xors ++
        (if dev.crc_sel = AD77681_XOR ∧
            0 ≤ (E.write_and_read desc.st (reg_read_frame H E dev desc reg_addr)).ret
          then [⟨2, 3, [0, 1]⟩] else []) ∧
    (ad77681_spi_reg_write H E dev desc reg_addr reg_value).desc.xors = desc.xors ∧
    (ad77681_spi_read_adc_data H E dev desc adc_data).desc.xors = desc.xors ∧
    xors_within desc (ad77681_spi_write_mask H E dev desc reg_addr mask reg_value).desc ∧
    xors_within desc (run_setter H E dev desc call).desc ∧
    (∀ out, (ad77681_setup H E (some block) init (ret0, st)).device = some out →
      ∀ c ∈ out.2.xors,
        c.data_size ≤ c.capacity ∧ c.capacity = 3 ∧ ∀ k ∈ c.stores, k < c.capacity) := by
  refine ⟨⟨_, ad77681_spi_reg_read_calls H E dev desc reg_addr reg_data, rfl, ?_, ?_⟩,
    ⟨_, ad77681_spi_reg_write_calls H E dev desc reg_addr reg_value, rfl, ?_, ?_⟩,
    ⟨_, ad77681_spi_read_adc_data_calls H E dev desc adc_data, rfl, ?_, ?_⟩,
    fun data data_size init_val => compute_xor_run_stores data data_size init_val,
    ad77681_spi_reg_read_xors H E dev desc reg_addr reg_data, rfl,
    ad77681_spi_read_adc_data_xors H E dev desc adc_data,
    ad77681_spi_write_mask_within H E dev desc reg_addr mask reg_value,
    run_setter_within H E dev desc call, fun out hout c hc => ?_⟩
  · show 2 ≤ (if dev.crc_sel = AD77681_NO_CRC then 2 else 3)
    split <;> decide
  · show (if dev.crc_sel = AD77681_NO_CRC then 2 else 3) ≤ 3
    split <;> decide
  · show 2 ≤ (if dev.crc_sel = AD77681_NO_CRC then 2 else 3)
    split <;> decide
  · show (if dev.crc_sel = AD77681_NO_CRC then 2 else 3) ≤ 3
    split <;> decide
  · show 3 ≤ conversion_frame_length_bytes dev + 1
    have := (conversion_frame_length_bytes_bounds dev).1
    omega
  · show conversion_frame_length_bytes dev + 1 ≤ 6
    have := (conversion_frame_length_bytes_bounds dev).2
    omega
  · by_cases hret : ret0 < 0
    · simp [ad77681_setup, hret] at hout
    · rw [(ad77681_setup_eq_run H E block init ret0 st hret).1] at hout
      obtain ⟨l, hl, hp⟩ := run_setters_within H E
        (setup_dev block init, { st := st, calls := [], writes := [] }) (setup_steps init)
      rw [← Option.some.inj hout, hl] at hc
      exact hp c (by simpa using hc)

/-- The calls of `ad77681_compute_xor` of a setup in mode XOR over the register
file: one per masked write, each with the length 2 and the stores 0 and 1. -/
theorem ad77681_setup_regfile_xors :
    ((ad77681_setup ad77681_regmap (regfile_engine ad77681_regmap AD77681_XOR (fun _ => 0))
      (some (dev_with AD77681_CONV_16BIT AD77681_NO_CRC false 0))
      (init_with AD77681_CONV_24BIT AD77681_XOR true) (0, regs_0x14)).device.map
        (fun out => out.2.xors)) = some (List.replicate 11 ⟨2, 3, [0, 1]⟩) := by
  decide
